import Mathlib

/-!
# Verification of the multipass monome-eurorack hardware layer

Shallow embedding of the voice-routing / device-dispatch engine implemented in
`src/monome_euro/main.c` of scanner-darkly/multipass, together with proofs about
its routing, dispatch, dirty-flag coalescing and timer-registry behaviour.

Machine integers are modelled as `Nat` (unsigned) and `Int` (signed), with
explicit reductions `% 2 ^ w` at the points where the C code converts or
truncates.  Bus traffic is modelled as a trace of `WireOp` values appended to
the state; the i2c leader gate (`_i2c_leader_tx`) is part of the model.

Hardware configuration constants (`_HARDWARE_CV_OUTPUT_COUNT`, ...) are taken
from `src/monome_euro/ansible/module.h`.  Device bus addresses (`TELEXO`,
`ER301_1`, `JF_ADDR`, ...) come from the external libavr32 header `ii.h`,
which is not part of this repository; their concrete values are immaterial to
every property proved here (only their role as fixed base addresses matters),
so they are fixed to the conventional values.
-/

-- ----------------------------------------------------------------------------
-- constants from src/monome_euro/main.c and src/constants.h

def TIMED_EVENT_COUNT : Nat := 100

def MAX_VOICES_COUNT : Nat := 32
def MAX_OUTPUT_COUNT : Nat := 8

def MAX_CV_COUNT : Nat := 4
def MAX_GATE_COUNT : Nat := 8

def MAX_ER301_OUTPUT_COUNT : Nat := 16
def MAX_JF_OUTPUT_COUNT : Nat := 6
def MAX_TXO_OUTPUT_COUNT : Nat := 16
def MAX_DISTING_EX_OUTPUT_COUNT : Nat := 32
def MAX_EX_MIDI_1_OUTPUT_COUNT : Nat := 16
def MAX_EX_MIDI_CH_OUTPUT_COUNT : Nat := 16
def MAX_I2C2MIDI_1_OUTPUT_COUNT : Nat := 16
def MAX_I2C2MIDI_CH_OUTPUT_COUNT : Nat := 16

def MAX_ER301_COUNT : Nat := 100

def TO_TR : Nat := 0x00
def TO_CV_SET : Nat := 0x11
def TO_OSC_SET : Nat := 0x41
def TO_ENV_ACT : Nat := 0x60
def TO_ENV : Nat := 0x6D
def TO_ENV_ATT : Nat := 0x61
def TO_ENV_DEC : Nat := 0x64
def TO_OSC_WAVE : Nat := 0x4A

def I2C2MIDI : Nat := 0x3F

-- constants from src/constants.h

def MAX_LEVEL : Nat := 16383

def VOICE_CV_GATE : Nat := 0
def VOICE_ER301 : Nat := 1
def VOICE_JF : Nat := 2
def VOICE_TXO_NOTE : Nat := 3
def VOICE_TXO_CV_GATE : Nat := 4
def VOICE_DISTING_EX : Nat := 5
def VOICE_EX_MIDI_1 : Nat := 6
def VOICE_EX_MIDI_CH : Nat := 7
def VOICE_I2C2MIDI_1 : Nat := 8
def VOICE_I2C2MIDI_CH : Nat := 9
def MAX_DEVICE_COUNT : Nat := 10

-- hardware configuration from src/monome_euro/ansible/module.h

def HARDWARE_CV_OUTPUT_COUNT : Nat := 4
def HARDWARE_GATE_OUTPUT_COUNT : Nat := 4

-- device bus addresses from the external header ii.h (libavr32); exact
-- values immaterial to the properties proved below

def ER301_1 : Nat := 0x31
def JF_ADDR : Nat := 0x70
def TELEXO : Nat := 0x60
def DISTING_EX_1 : Nat := 0x41
def JF_MODE_CMD : Nat := 8
def JF_TR : Nat := 1
def JF_VOX : Nat := 6

-- ----------------------------------------------------------------------------
-- machine-integer helpers

/-- Interpret an `Int` as the C `(u16)` cast: two's-complement residue in `[0, 65536)`. -/
def toU16 (x : Int) : Nat := (x % 65536).toNat

/-- Interpret a `Nat` holding a `u16` bit pattern as the signed 16-bit value it
encodes (the implicit `u16` → `s16` conversion used when a stored `u16` is
passed to an `s16` parameter). -/
def toS16 (n : Nat) : Int :=
  if n % 65536 < 32768 then (n % 65536 : Int) else (n % 65536 : Int) - 65536

/-- Signed 16-bit wraparound for `s16` arithmetic results. -/
def wrapS16 (x : Int) : Int := (x + 32768) % 65536 - 32768

-- ----------------------------------------------------------------------------
-- state

/-- One observable output action: an i2c transaction actually placed on the bus,
or a direct hardware CV / gate write. -/
inductive WireOp where
  | i2c (addr : Nat) (data : List Nat)
  | cvOut (output : Nat) (value : Int)
  | gateOut (output : Nat) (isOn : Bool)
  deriving DecidableEq, Repr

/-- `struct txo_refresh_t` from main.c. -/
structure TxoRefreshSlot where
  attack_dirty : Bool := false
  decay_dirty : Bool := false
  waveform_dirty : Bool := false
  attack : Nat := 0
  decay : Nat := 0
  waveform : Nat := 0
  deriving DecidableEq, Repr

/-- One slot of `event_timers`: the libavr32 `softTimer_t` is modelled by its
`ticks` field plus whether the timer is currently in the active list, together
with the `repeat` flag stored alongside it. -/
structure TimerSlot where
  ticks : Nat := 0
  active : Bool := false
  rpt : Nat := 0
  deriving DecidableEq, Repr

/-- The global mutable state of main.c relevant to routing and dispatch, plus
the trace of bus/hardware output operations performed so far (in order). -/
structure MPState where
  /-- `voice_maps[MAX_VOICES_COUNT][MAX_DEVICE_COUNT][MAX_OUTPUT_COUNT >> 3]`:
  voice → device → byte index → byte value. -/
  voiceMaps : Nat → Nat → Nat → Nat
  /-- `device_on[MAX_DEVICE_COUNT]` (u16, nonzero = not muted). -/
  deviceOn : Nat → Nat
  /-- `last_pitch[MAX_VOICES_COUNT]`. -/
  lastPitch : Nat → Int
  /-- `cv_values[MAX_CV_COUNT]`. -/
  cvValues : Nat → Int
  cvTranspose : Nat → Int
  er301Transpose : Nat → Int
  jfTranspose : Nat → Int
  txoTranspose : Nat → Int
  distingExTranspose : Nat → Int
  exMidi1Transpose : Nat → Int
  exMidiChTranspose : Nat → Int
  i2c2midi1Transpose : Nat → Int
  i2c2midiChTranspose : Nat → Int
  er301MaxVolume : Nat → Nat
  jfMaxVolume : Nat → Nat
  txoMaxVolume : Nat → Nat
  distingExMaxVolume : Nat → Nat
  exMidi1MaxVolume : Nat → Nat
  exMidiChMaxVolume : Nat → Nat
  i2c2midi1MaxVolume : Nat → Nat
  i2c2midiChMaxVolume : Nat → Nat
  /-- `txo_mode[MAX_TXO_OUTPUT_COUNT]`. -/
  txoMode : Nat → Nat
  /-- `jf_mode`. -/
  jfMode : Nat
  /-- `is_i2c_leader`. -/
  isI2cLeader : Bool
  /-- `txo_refresh[MAX_TXO_OUTPUT_COUNT]`. -/
  txoRefresh : Nat → TxoRefreshSlot
  /-- `event_timers[TIMED_EVENT_COUNT]`. -/
  eventTimers : Nat → TimerSlot
  /-- chronological trace of emitted wire operations. -/
  trace : List WireOp

/-- Point update of a one-argument state array. -/
def upd1 {α} (f : Nat → α) (i : Nat) (a : α) : Nat → α :=
  fun j => if j = i then a else f j

/-- Point update of the three-dimensional `voice_maps` array. -/
def updMap (m : Nat → Nat → Nat → Nat) (v d k : Nat) (b : Nat) :
    Nat → Nat → Nat → Nat :=
  fun v' d' k' => if v' = v ∧ d' = d ∧ k' = k then b else m v' d' k'

-- ----------------------------------------------------------------------------
-- bus / hardware primitives

/-- `_i2c_leader_tx`: transactions are dropped unless the module is i2c leader. -/
def i2c_leader_tx (st : MPState) (addr : Nat) (data : List Nat) : MPState :=
  if st.isI2cLeader then { st with trace := st.trace ++ [.i2c addr data] } else st

/-- `_set_cv` (ansible: daisy-chained DAC write). -/
def set_cv_impl (st : MPState) (output : Nat) (value : Int) : MPState :=
  if output ≥ HARDWARE_CV_OUTPUT_COUNT ∨ output ≥ MAX_CV_COUNT then st
  else { st with
    cvValues := upd1 st.cvValues output value
    trace := st.trace ++ [.cvOut output value] }

/-- `_set_gate`. -/
def set_gate_impl (st : MPState) (output : Nat) (isOn : Bool) : MPState :=
  if output ≥ HARDWARE_GATE_OUTPUT_COUNT ∨ output ≥ MAX_GATE_COUNT then st
  else { st with trace := st.trace ++ [.gateOut output isOn] }

-- ----------------------------------------------------------------------------
-- pitch / note conversion (main.c lines 501-511)

/-- `note_to_pitch` translated verbatim: note the final
`pitch = (pitch > 1) + (pitch & 1)` line present in the source. -/
def note_to_pitch (note : Nat) : Nat :=
  let pitch := (note % 65536) * 16384 / 60
  let pitch := (if pitch > 1 then 1 else 0) + (pitch &&& 1)
  pitch % 65536

/-- `pitch_to_note` translated verbatim, including the final
`note = (note > 1) + (note & 1)` line. -/
def pitch_to_note (pitch : Nat) : Nat :=
  let note := (pitch % 65536) * 240 / 16384
  let note := (if note > 1 then 1 else 0) + (note &&& 1)
  note % 65536

-- ----------------------------------------------------------------------------
-- routing predicate (main.c line 513)

/-- `_is_voice_mapped`: bit test in `voice_maps` combined with `device_on`. -/
def is_voice_mapped (st : MPState) (voice device output : Nat) : Bool :=
  (st.voiceMaps voice device (output >>> 3) &&& (1 <<< (output &&& 7)) ≠ 0)
    && (st.deviceOn device ≠ 0)

-- ----------------------------------------------------------------------------
-- device protocol encoders (main.c lines 883-1177)

/-- Truncation to a `u8` array element. -/
def u8t (n : Nat) : Nat := n % 256

/-- `_send_note` (direct CV/Gate family). -/
def send_note (st : MPState) (output : Nat) (pitch : Int) (volume : Nat) : MPState :=
  if volume ≠ 0 then
    let pitch := wrapS16 (pitch + st.cvTranspose output)
    let st := set_cv_impl st output pitch
    set_gate_impl st output true
  else
    set_gate_impl st output false

/-- `_set_er301_cv`. -/
def set_er301_cv_impl (st : MPState) (output : Nat) (value : Int) : MPState :=
  if output ≥ MAX_ER301_COUNT then st
  else i2c_leader_tx st ER301_1 [TO_CV_SET, output, toU16 value >>> 8, toU16 value &&& 0xff]

/-- `_set_er301_gate`: note the gate command is transmitted twice. -/
def set_er301_gate_impl (st : MPState) (output : Nat) (isOn : Bool) : MPState :=
  if output ≥ MAX_ER301_COUNT then st
  else
    let d := [TO_TR, output, 0, if isOn then 1 else 0]
    let st := i2c_leader_tx st ER301_1 d
    i2c_leader_tx st ER301_1 d

/-- `_send_er301_note`. -/
def send_er301_note (st : MPState) (output : Nat) (pitch : Int) (volume : Nat) : MPState :=
  if output ≥ MAX_ER301_OUTPUT_COUNT then st
  else if volume ≠ 0 then
    let vol := volume * st.er301MaxVolume output / MAX_LEVEL
    let pitch := wrapS16 (pitch + st.er301Transpose output - 3277)
    let st := set_er301_cv_impl st output pitch
    -- using 2nd set for volume
    let st := set_er301_cv_impl st (output + MAX_ER301_OUTPUT_COUNT) (toS16 vol)
    set_er301_gate_impl st output true
  else
    set_er301_gate_impl st output false

/-- `_set_jf_mode`: emits only on a change of the tracked `jf_mode`. -/
def set_jf_mode_impl (st : MPState) (mode : Nat) : MPState :=
  if mode ≠ 0 ∧ st.jfMode = 0 then
    let st := { st with jfMode := 1 }
    i2c_leader_tx st JF_ADDR [JF_MODE_CMD, 1]
  else if mode = 0 ∧ st.jfMode ≠ 0 then
    let st := { st with jfMode := 0 }
    i2c_leader_tx st JF_ADDR [JF_MODE_CMD, 0]
  else st

/-- `_set_jf_gate`. -/
def set_jf_gate_impl (st : MPState) (output : Nat) (isOn : Bool) : MPState :=
  if output ≥ MAX_JF_OUTPUT_COUNT then st
  else i2c_leader_tx st JF_ADDR [JF_TR, output + 1, if isOn then 1 else 0]

/-- `_send_jf_note`. -/
def send_jf_note (st : MPState) (output : Nat) (pitch : Int) (volume : Nat) : MPState :=
  if output ≥ MAX_JF_OUTPUT_COUNT then st
  else
    let vol := volume * st.jfMaxVolume output / MAX_LEVEL
    let pitch := wrapS16 (pitch + st.jfTranspose output - 3277)
    let st := i2c_leader_tx st JF_ADDR
      [JF_VOX, output + 1, toU16 pitch >>> 8, toU16 pitch &&& 0xff,
       (vol % 65536) >>> 8, vol &&& 0xff]
    set_jf_gate_impl st output (vol > 0)

/-- `_send_txo_command`: all TXO traffic goes through this. -/
def send_txo_command (st : MPState) (output : Nat) (command : Nat) (value : Int) : MPState :=
  if output ≥ MAX_TXO_OUTPUT_COUNT then st
  else
    let address := u8t (TELEXO + (output >>> 2))
    let port := output &&& 0b11
    i2c_leader_tx st address [command, port, toU16 value >>> 8, toU16 value &&& 0xff]

/-- `_set_txo_mode`: the `txo_mode[output] == mode` early-return present in the
source is commented out, so the command pair is emitted unconditionally. -/
def set_txo_mode_impl (st : MPState) (output : Nat) (mode : Nat) : MPState :=
  if output ≥ MAX_TXO_OUTPUT_COUNT then st
  else
    let st :=
      if mode ≠ 0 then
        send_txo_command st output TO_ENV_ACT 1
      else
        let st := send_txo_command st output TO_ENV_ACT 0
        send_txo_command st output TO_OSC_SET 0
    { st with txoMode := upd1 st.txoMode output mode }

/-- `_send_txo_note`: always forces envelope mode first. -/
def send_txo_note (st : MPState) (output : Nat) (pitch : Int) (volume : Nat) : MPState :=
  if output ≥ MAX_TXO_OUTPUT_COUNT then st
  else
    let st := set_txo_mode_impl st output 1
    if volume ≠ 0 then
      let vol := volume * st.txoMaxVolume output / MAX_LEVEL
      let pitch := wrapS16 (pitch + st.txoTranspose output + 4915)
      let st := send_txo_command st output TO_OSC_SET pitch
      let st := send_txo_command st output TO_CV_SET (toS16 vol)
      send_txo_command st output TO_ENV 1
    else
      send_txo_command st output TO_ENV 0

/-- `_set_txo_cv`: always forces oscillator mode first. -/
def set_txo_cv_impl (st : MPState) (output : Nat) (value : Int) : MPState :=
  let st := set_txo_mode_impl st output 0
  send_txo_command st output TO_CV_SET value

/-- `_set_txo_gate`. -/
def set_txo_gate_impl (st : MPState) (output : Nat) (isOn : Bool) : MPState :=
  if output ≥ MAX_TXO_OUTPUT_COUNT then st
  else
    let st := send_txo_command st output TO_ENV 0
    send_txo_command st output TO_TR (if isOn then 1 else 0)

/-- `_send_disting_ex_note`: the note-off command is built from the note number
derived from the *current* pitch, then (when the scaled volume is nonzero) the
pitch and note-on commands for that same note follow. -/
def send_disting_ex_note (st : MPState) (output : Nat) (pitch : Int) (volume : Nat) : MPState :=
  if output ≥ MAX_DISTING_EX_OUTPUT_COUNT then st
  else
    let vol := volume * st.distingExMaxVolume output / MAX_LEVEL
    let pitch := wrapS16 (pitch + st.distingExTranspose output - 3277)
    let note := u8t (pitch_to_note (toU16 pitch) + 48)
    let note := if note > 127 then 127 else note
    -- 8 channels per disting device
    let address := u8t (DISTING_EX_1 + (output >>> 3))
    let channel := output &&& 7
    let st := i2c_leader_tx st address [0x6A, channel, note]
    if vol ≠ 0 then
      let st := i2c_leader_tx st address
        [0x68, channel, note, toU16 pitch >>> 8, toU16 pitch &&& 0xff]
      i2c_leader_tx st address [0x69, channel, note, (vol % 65536) >>> 8, vol &&& 0xff]
    else st

/-- `_send_ex_midi_1_note`. -/
def send_ex_midi_1_note (st : MPState) (output : Nat) (pitch : Int) (volume : Nat) : MPState :=
  if output ≥ MAX_EX_MIDI_1_OUTPUT_COUNT then st
  else
    let vol := volume * st.exMidi1MaxVolume output / MAX_LEVEL
    let pitch := wrapS16 (pitch + st.exMidi1Transpose output)
    let note := u8t (pitch_to_note (toU16 pitch))
    if vol ≠ 0 then
      i2c_leader_tx st DISTING_EX_1 [0x4F, 0x90, note, u8t ((vol % 65536) >>> 7)]
    else
      i2c_leader_tx st DISTING_EX_1 [0x4F, 0x80, note, 0]

/-- `_send_ex_midi_ch_note`. -/
def send_ex_midi_ch_note (st : MPState) (output : Nat) (pitch : Int) (volume : Nat) : MPState :=
  if output ≥ MAX_EX_MIDI_CH_OUTPUT_COUNT then st
  else
    let vol := volume * st.exMidiChMaxVolume output / MAX_LEVEL
    let pitch := wrapS16 (pitch + st.exMidiChTranspose output)
    let note := u8t (pitch_to_note (toU16 pitch))
    if vol ≠ 0 then
      i2c_leader_tx st DISTING_EX_1 [0x4F, u8t (0x90 + output), note, u8t ((vol % 65536) >>> 7)]
    else
      i2c_leader_tx st DISTING_EX_1 [0x4F, u8t (0x80 + output), note, 0]

/-- `_send_i2c2midi_1_note` (the bounds check and max-volume array are the
`ex_midi_1` ones, as in the source). -/
def send_i2c2midi_1_note (st : MPState) (output : Nat) (pitch : Int) (volume : Nat) : MPState :=
  if output ≥ MAX_EX_MIDI_1_OUTPUT_COUNT then st
  else
    let vol := volume * st.exMidi1MaxVolume output / MAX_LEVEL
    let _pitch := wrapS16 (pitch + st.i2c2midi1Transpose output)
    if vol ≠ 0 then
      i2c_leader_tx st I2C2MIDI [20, 0, u8t (output + 10), u8t ((vol % 65536) >>> 7)]
    else
      i2c_leader_tx st I2C2MIDI [21, 0, u8t (output + 20)]

/-- `_send_i2c2midi_ch_note` (bounds check and max-volume array are the
`ex_midi_ch` ones, as in the source). -/
def send_i2c2midi_ch_note (st : MPState) (output : Nat) (pitch : Int) (volume : Nat) : MPState :=
  if output ≥ MAX_EX_MIDI_CH_OUTPUT_COUNT then st
  else
    let vol := volume * st.exMidiChMaxVolume output / MAX_LEVEL
    let pitch := wrapS16 (pitch + st.i2c2midiChTranspose output)
    let note := u8t (pitch_to_note (toU16 pitch))
    if vol ≠ 0 then
      i2c_leader_tx st I2C2MIDI [20, output, note, u8t ((vol % 65536) >>> 7)]
    else
      i2c_leader_tx st I2C2MIDI [21, output, note]

-- ----------------------------------------------------------------------------
-- note dispatch engine (main.c lines 517-644)

/-- One per-family dispatch loop of `note_on_v` / `note_off`: iterate outputs
`0 .. MAX_OUTPUT_COUNT-1` and run `body` on every output currently mapped. -/
def dispatchLoop (voice device : Nat) (body : MPState → Nat → MPState)
    (st : MPState) : MPState :=
  (List.range MAX_OUTPUT_COUNT).foldl
    (fun s output => if is_voice_mapped s voice device output then body s output else s) st

/-- `note_on_v`. -/
def note_on_v (st : MPState) (voice : Nat) (pitch : Int) (volume : Nat) : MPState :=
  if voice ≥ MAX_VOICES_COUNT then st
  else
    let st := { st with lastPitch := upd1 st.lastPitch voice pitch }
    let st := dispatchLoop voice VOICE_CV_GATE (fun s o => send_note s o pitch volume) st
    let st := dispatchLoop voice VOICE_ER301 (fun s o => send_er301_note s o pitch volume) st
    let st := dispatchLoop voice VOICE_JF (fun s o => send_jf_note s o pitch volume) st
    let st := dispatchLoop voice VOICE_TXO_NOTE (fun s o => send_txo_note s o pitch volume) st
    let st := dispatchLoop voice VOICE_TXO_CV_GATE
      (fun s o => set_txo_gate_impl (set_txo_cv_impl s o pitch) o true) st
    let st := dispatchLoop voice VOICE_DISTING_EX (fun s o => send_disting_ex_note s o pitch volume) st
    let st := dispatchLoop voice VOICE_EX_MIDI_1 (fun s o => send_ex_midi_1_note s o pitch volume) st
    let st := dispatchLoop voice VOICE_EX_MIDI_CH (fun s o => send_ex_midi_ch_note s o pitch volume) st
    let st := dispatchLoop voice VOICE_I2C2MIDI_1 (fun s o => send_i2c2midi_1_note s o pitch volume) st
    dispatchLoop voice VOICE_I2C2MIDI_CH (fun s o => send_i2c2midi_ch_note s o pitch volume) st

/-- `note_on` (note-number entry point). -/
def note_on (st : MPState) (voice note volume : Nat) : MPState :=
  note_on_v st voice (toS16 (note_to_pitch note)) volume

/-- `note_off`: iterates the routing and mute state current at call time, using
`last_pitch[voice]` (a global no dispatch body writes) and volume `0`. -/
def note_off (st : MPState) (voice : Nat) : MPState :=
  if voice ≥ MAX_VOICES_COUNT then st
  else
    let pitch := st.lastPitch voice
    let st := dispatchLoop voice VOICE_CV_GATE (fun s o => send_note s o pitch 0) st
    let st := dispatchLoop voice VOICE_ER301 (fun s o => send_er301_note s o pitch 0) st
    let st := dispatchLoop voice VOICE_JF (fun s o => send_jf_note s o pitch 0) st
    let st := dispatchLoop voice VOICE_TXO_NOTE (fun s o => send_txo_note s o pitch 0) st
    let st := dispatchLoop voice VOICE_TXO_CV_GATE
      (fun s o => set_txo_gate_impl s o false) st
    let st := dispatchLoop voice VOICE_DISTING_EX (fun s o => send_disting_ex_note s o pitch 0) st
    let st := dispatchLoop voice VOICE_EX_MIDI_1 (fun s o => send_ex_midi_1_note s o pitch 0) st
    let st := dispatchLoop voice VOICE_EX_MIDI_CH (fun s o => send_ex_midi_ch_note s o pitch 0) st
    let st := dispatchLoop voice VOICE_I2C2MIDI_1 (fun s o => send_i2c2midi_1_note s o pitch 0) st
    dispatchLoop voice VOICE_I2C2MIDI_CH (fun s o => send_i2c2midi_ch_note s o pitch 0) st

/-- `map_voice`: note the guard is `output > MAX_OUTPUT_COUNT` in the source
(not `>=`), so `output = MAX_OUTPUT_COUNT` is *not* rejected and falls through
to the byte update at index `output >> 3`. -/
def map_voice (st : MPState) (voice device output : Nat) (isOn : Bool) : MPState :=
  if voice ≥ MAX_VOICES_COUNT ∨ device ≥ MAX_DEVICE_COUNT ∨ output > MAX_OUTPUT_COUNT then st
  else if isOn then
    let b := st.voiceMaps voice device (output >>> 3) ||| (1 <<< (output &&& 7))
    { st with voiceMaps := updMap st.voiceMaps voice device (output >>> 3) b }
  else
    let b := st.voiceMaps voice device (output >>> 3) &&& (0xff ^^^ (1 <<< (output &&& 7)))
    { st with voiceMaps := updMap st.voiceMaps voice device (output >>> 3) b }

/-- `mute_device`: `device_on[device] = !mute`. -/
def mute_device (st : MPState) (device : Nat) (mute : Bool) : MPState :=
  if device ≥ MAX_DEVICE_COUNT then st
  else { st with deviceOn := upd1 st.deviceOn device (if mute then 0 else 1) }

-- ----------------------------------------------------------------------------
-- public i2c setters (main.c lines 699-752)

/-- `set_as_i2c_leader` via `_set_i2c_mode(1)` (the `init_i2c_leader` hardware
call is external). -/
def set_as_i2c_leader (st : MPState) : MPState :=
  if st.isI2cLeader = false then { st with isI2cLeader := true } else st

/-- `set_er301_gate` (public wrapper over `_set_er301_gate`). -/
def set_er301_gate (st : MPState) (output : Nat) (isOn : Bool) : MPState :=
  set_er301_gate_impl st output isOn

/-- `set_txo_mode` (public wrapper over `_set_txo_mode`). -/
def set_txo_mode (st : MPState) (output mode : Nat) : MPState :=
  set_txo_mode_impl st output mode

/-- `set_txo_attack`: records the pending value and sets the dirty flag;
no bus traffic. -/
def set_txo_attack (st : MPState) (output attack : Nat) : MPState :=
  if output ≥ MAX_TXO_OUTPUT_COUNT then st
  else
    let slot := { st.txoRefresh output with attack := attack % 65536, attack_dirty := true }
    { st with txoRefresh := upd1 st.txoRefresh output slot }

/-- `set_txo_decay`. -/
def set_txo_decay (st : MPState) (output decay : Nat) : MPState :=
  if output ≥ MAX_TXO_OUTPUT_COUNT then st
  else
    let slot := { st.txoRefresh output with decay := decay % 65536, decay_dirty := true }
    { st with txoRefresh := upd1 st.txoRefresh output slot }

/-- `set_txo_waveform`. -/
def set_txo_waveform (st : MPState) (output waveform : Nat) : MPState :=
  if output ≥ MAX_TXO_OUTPUT_COUNT then st
  else
    let slot := { st.txoRefresh output with waveform := waveform % 65536, waveform_dirty := true }
    { st with txoRefresh := upd1 st.txoRefresh output slot }

-- ----------------------------------------------------------------------------
-- timed-event registry (main.c lines 319-337)

/-- `add_timed_event`: `timer_remove` then `timer_add` on the slot, recording
the repeat flag in between.  The guard is `index > TIMED_EVENT_COUNT` in the
source (not `>=`). -/
def add_timed_event (st : MPState) (index ms rpt : Nat) : MPState :=
  if index > TIMED_EVENT_COUNT then st
  else
    let s1 := { st.eventTimers index with active := false }
    let st := { st with eventTimers := upd1 st.eventTimers index s1 }
    let s2 := { st.eventTimers index with rpt := rpt }
    let st := { st with eventTimers := upd1 st.eventTimers index s2 }
    let s3 := { st.eventTimers index with ticks := ms % 65536, active := true }
    { st with eventTimers := upd1 st.eventTimers index s3 }

/-- `stop_timed_event` (same `>` guard as the source). -/
def stop_timed_event (st : MPState) (index : Nat) : MPState :=
  if index > TIMED_EVENT_COUNT then st
  else
    let slot := { st.eventTimers index with active := false }
    { st with eventTimers := upd1 st.eventTimers index slot }

/-- `update_timer_interval`: writes `event_timers[index].timer.ticks` directly
(same `>` guard as the source). -/
def update_timer_interval (st : MPState) (index ms : Nat) : MPState :=
  if index > TIMED_EVENT_COUNT then st
  else
    let slot := { st.eventTimers index with ticks := ms % 65536 }
    { st with eventTimers := upd1 st.eventTimers index slot }

-- ----------------------------------------------------------------------------
-- dirty-parameter batch flush (main.c lines 1572-1592)

/-- One iteration of the `refresh_i2c` scan: flush and clear each dirty field
of output `i` (the `updated` local of the source has no effect and is omitted). -/
def refresh_step (st : MPState) (i : Nat) : MPState :=
  let st :=
    if (st.txoRefresh i).attack_dirty then
      let st := send_txo_command st i TO_ENV_ATT (toS16 (st.txoRefresh i).attack)
      let slot := { st.txoRefresh i with attack_dirty := false }
      { st with txoRefresh := upd1 st.txoRefresh i slot }
    else st
  let st :=
    if (st.txoRefresh i).decay_dirty then
      let st := send_txo_command st i TO_ENV_DEC (toS16 (st.txoRefresh i).decay)
      let slot := { st.txoRefresh i with decay_dirty := false }
      { st with txoRefresh := upd1 st.txoRefresh i slot }
    else st
  if (st.txoRefresh i).waveform_dirty then
    let st := send_txo_command st i TO_OSC_WAVE (toS16 (st.txoRefresh i).waveform)
    let slot := { st.txoRefresh i with waveform_dirty := false }
    { st with txoRefresh := upd1 st.txoRefresh i slot }
  else st

/-- `refresh_i2c`: scan all TXO outputs once. -/
def refresh_i2c (st : MPState) : MPState :=
  (List.range MAX_TXO_OUTPUT_COUNT).foldl refresh_step st

-- ----------------------------------------------------------------------------
-- a concrete test state: the configuration `init_state` establishes
-- (empty routing, all devices unmuted, default max volumes, zero transposes,
-- `txo_mode` = 2, clean dirty flags, empty timer slots) with i2c leadership
-- acquired and an empty trace

def testState : MPState where
  voiceMaps := fun _ _ _ => 0
  deviceOn := fun _ => 1
  lastPitch := fun _ => 0
  cvValues := fun _ => 0
  cvTranspose := fun _ => 0
  er301Transpose := fun _ => 0
  jfTranspose := fun _ => 0
  txoTranspose := fun _ => 0
  distingExTranspose := fun _ => 0
  exMidi1Transpose := fun _ => 0
  exMidiChTranspose := fun _ => 0
  i2c2midi1Transpose := fun _ => 0
  i2c2midiChTranspose := fun _ => 0
  er301MaxVolume := fun _ => MAX_LEVEL
  jfMaxVolume := fun _ => MAX_LEVEL
  txoMaxVolume := fun _ => MAX_LEVEL
  distingExMaxVolume := fun _ => MAX_LEVEL
  exMidi1MaxVolume := fun _ => MAX_LEVEL
  exMidiChMaxVolume := fun _ => MAX_LEVEL
  i2c2midi1MaxVolume := fun _ => MAX_LEVEL
  i2c2midiChMaxVolume := fun _ => MAX_LEVEL
  txoMode := fun _ => 2
  jfMode := 0
  isI2cLeader := true
  txoRefresh := fun _ => {}
  eventTimers := fun _ => {}
  trace := []

-- ----------------------------------------------------------------------------
-- specification-level views used by the theorems below

/-- Two states agree on everything `_is_voice_mapped` and `_i2c_leader_tx`
read: the routing bitmap, the mute flags and the leader role. -/
def sameRouting (a b : MPState) : Prop :=
  a.voiceMaps = b.voiceMaps ∧ a.deviceOn = b.deviceOn ∧ a.isI2cLeader = b.isI2cLeader


/-- The three independently-dirty TXO parameter fields. -/
inductive TxoField where
  | attack
  | decay
  | waveform
  deriving DecidableEq, Repr

/-- The protocol command byte flushed for each dirty field. -/
def txoFieldCmd : TxoField → Nat
  | .attack => TO_ENV_ATT
  | .decay => TO_ENV_DEC
  | .waveform => TO_OSC_WAVE

/-- The public setter for each field. -/
def set_txo_param : TxoField → MPState → Nat → Nat → MPState
  | .attack => set_txo_attack
  | .decay => set_txo_decay
  | .waveform => set_txo_waveform

def txoFieldDirty : TxoField → TxoRefreshSlot → Bool
  | .attack, s => s.attack_dirty
  | .decay, s => s.decay_dirty
  | .waveform, s => s.waveform_dirty

def txoFieldVal : TxoField → TxoRefreshSlot → Nat
  | .attack, s => s.attack
  | .decay, s => s.decay
  | .waveform, s => s.waveform

/-- The wire message `_send_txo_command` places on the bus for output `i`,
command `c`, value `val` (a stored `u16`). -/
def txoCmdWire (i c val : Nat) : WireOp :=
  WireOp.i2c (u8t (TELEXO + (i >>> 2)))
    [c, i &&& 3, toU16 (toS16 val) >>> 8, toU16 (toS16 val) &&& 0xff]

/-- The messages one `refresh_i2c` scan iteration emits for output `i`. -/
def refreshMsgs (st : MPState) (i : Nat) : List WireOp :=
  (if (st.txoRefresh i).attack_dirty then [txoCmdWire i TO_ENV_ATT (st.txoRefresh i).attack] else [])
    ++ (if (st.txoRefresh i).decay_dirty then [txoCmdWire i TO_ENV_DEC (st.txoRefresh i).decay] else [])
    ++ (if (st.txoRefresh i).waveform_dirty then [txoCmdWire i TO_OSC_WAVE (st.txoRefresh i).waveform] else [])

/-- A slot with all three dirty flags cleared. -/
def clearDirty (s : TxoRefreshSlot) : TxoRefreshSlot :=
  { s with attack_dirty := false, decay_dirty := false, waveform_dirty := false }

/-- Recognizer for a flush command of field `fld` addressed at TXO output `o`. -/
def isFieldMsgFor (fld : TxoField) (o : Nat) : WireOp → Bool
  | .i2c addr data =>
      addr = u8t (TELEXO + (o >>> 2)) && data.head? = some (txoFieldCmd fld)
        && data[1]? = some (o &&& 3)
  | _ => false

-- ----------------------------------------------------------------------------
-- helper lemmas

set_option maxRecDepth 100000

theorem upd1_same {α} (f : Nat → α) (i : Nat) (a : α) : upd1 f i a i = a := by
  simp [upd1]

theorem upd1_other {α} (f : Nat → α) (i j : Nat) (a : α) (h : j ≠ i) :
    upd1 f i a j = f j := by
  simp [upd1, h]

theorem updMap_same (m : Nat → Nat → Nat → Nat) (v d k b : Nat) :
    updMap m v d k b v d k = b := by
  simp [updMap]

/-- Setting a bit makes the bit test succeed. -/
theorem or_shift_and_shift_ne_zero (b k : Nat) :
    (b ||| (1 <<< k)) &&& (1 <<< k) ≠ 0 := by
  rw [Nat.one_shiftLeft, Nat.and_two_pow, Nat.testBit_or]
  simp [Nat.testBit_two_pow_self]

/-- Clearing a bit (via the 8-bit complement mask) makes the bit test fail. -/
theorem and_mask_and_shift_eq_zero (b k : Nat) (hk : k < 8) :
    (b &&& (0xff ^^^ (1 <<< k))) &&& (1 <<< k) = 0 := by
  rw [Nat.one_shiftLeft, Nat.and_two_pow, Nat.testBit_and, Nat.testBit_xor]
  have h255 : (255 : Nat).testBit k = true := by
    have : (255 : Nat) = 2 ^ 8 - 1 := by norm_num
    rw [this, Nat.testBit_two_pow_sub_one]
    simpa using hk
  simp [h255, Nat.testBit_two_pow_self]

/-- Setting one bit leaves the test of a different bit unchanged. -/
theorem or_shift_and_shift_other (b j k : Nat) (h : j ≠ k) :
    (b ||| (1 <<< k)) &&& (1 <<< j) = b &&& (1 <<< j) := by
  rw [Nat.one_shiftLeft, Nat.one_shiftLeft, Nat.and_two_pow, Nat.and_two_pow,
    Nat.testBit_or, Nat.testBit_two_pow_of_ne (fun hkj => h hkj.symm)]
  simp

/-- Clearing one bit (8-bit mask) leaves the test of a different low bit unchanged. -/
theorem and_mask_and_shift_other (b j k : Nat) (h : j ≠ k) (hj : j < 8) :
    (b &&& (0xff ^^^ (1 <<< k))) &&& (1 <<< j) = b &&& (1 <<< j) := by
  rw [Nat.one_shiftLeft, Nat.one_shiftLeft, Nat.and_two_pow, Nat.and_two_pow,
    Nat.testBit_and, Nat.testBit_xor]
  have h255 : (255 : Nat).testBit j = true := by
    have : (255 : Nat) = 2 ^ 8 - 1 := by norm_num
    rw [this, Nat.testBit_two_pow_sub_one]
    simpa using hj
  rw [Nat.testBit_two_pow_of_ne (fun hkj => h hkj.symm)]
  simp [h255]

-- ----------------------------------------------------------------------------
-- C1 / C9 / C3: bounds and conversion defects, evaluated at the failing inputs

/-- C1: the claim says `map_voice(v, f, o, true)` with `o = MAX_OUTPUT_COUNT`
leaves all routing state unchanged.  The source guard is
`output > MAX_OUTPUT_COUNT`, so `o = MAX_OUTPUT_COUNT = 8` slips through and
the update lands at byte index `8 >> 3 = 1`, one past the end of the
`MAX_OUTPUT_COUNT >> 3 = 1`-byte per-(voice, device) bitmap row: an
out-of-bounds write, not a no-op. -/
theorem C1_map_voice_bound_overflow :
    (map_voice testState 0 0 MAX_OUTPUT_COUNT true).voiceMaps 0 0 1 = 1 ∧
    testState.voiceMaps 0 0 1 = 0 ∧
    MAX_OUTPUT_COUNT >>> 3 = 1 ∧ (MAX_OUTPUT_COUNT >>> 3 < 1) = False := by
  decide

/-- C9: the claim says every index outside `[0, TIMED_EVENT_COUNT)` is ignored
with no mutation, in particular index `TIMED_EVENT_COUNT`.  The source guards
are `index > TIMED_EVENT_COUNT`, so index `100` slips through and both
`add_timed_event` and `update_timer_interval` mutate slot `100`, one past the
end of the `TIMED_EVENT_COUNT`-slot registry. -/
theorem C9_timer_bound_overflow :
    (add_timed_event testState TIMED_EVENT_COUNT 10 1).eventTimers TIMED_EVENT_COUNT
        ≠ testState.eventTimers TIMED_EVENT_COUNT ∧
    (update_timer_interval testState TIMED_EVENT_COUNT 55).eventTimers TIMED_EVENT_COUNT
        ≠ testState.eventTimers TIMED_EVENT_COUNT ∧
    stop_timed_event testState (TIMED_EVENT_COUNT + 1) = testState :=
  ⟨by decide, by decide, rfl⟩

/-- C3: the claim says `note_to_pitch` is proportional to `note * 16384 / 60`
and that both conversions are monotonic.  The final
`pitch = (pitch > 1) + (pitch & 1)` line collapses every result into
`{0, 1, 2}`: `note_to_pitch 1 = 2 > 1 = note_to_pitch 2` (instead of 273 and
546), and `pitch_to_note 206 = 2 > 1 = pitch_to_note 274`, so neither map is
monotonic nor proportional. -/
theorem C3_conversion_collapse :
    note_to_pitch 1 = 2 ∧ note_to_pitch 2 = 1 ∧
    note_to_pitch 1 ≠ 1 * 16384 / 60 ∧
    pitch_to_note 206 = 2 ∧ pitch_to_note 274 = 1 := by
  decide

-- ----------------------------------------------------------------------------
-- C4: TXO mode switching

/-- C4 counterexample: the claim says re-applying the same mode via
`set_txo_mode` produces no bus traffic; the `txo_mode[output] == mode` guard
is commented out in the source, so the second identical call emits the
`TO_ENV_ACT` command again. -/
theorem C4_txo_mode_reapply_emits :
    (set_txo_mode testState 0 1).txoMode 0 = 1 ∧
    (set_txo_mode (set_txo_mode testState 0 1) 0 1).trace =
      (set_txo_mode testState 0 1).trace ++ [WireOp.i2c TELEXO [TO_ENV_ACT, 0, 0, 1]] := by
  decide

/-- C4 amended: the mode *is* tracked per output (`txo_mode[output]` is
updated), but the mode-setup commands are emitted unconditionally on every
`set_txo_mode` call — also when the requested mode equals the tracked one. -/
theorem C4_txo_mode_tracked_but_unconditional (st : MPState) (o m : Nat)
    (ho : o < MAX_TXO_OUTPUT_COUNT) (hl : st.isI2cLeader = true) :
    (set_txo_mode st o m).txoMode o = m ∧
    (set_txo_mode st o m).trace = st.trace ++
      (if m ≠ 0 then
        [WireOp.i2c (u8t (TELEXO + (o >>> 2))) [TO_ENV_ACT, o &&& 3, 0, 1]]
      else
        [WireOp.i2c (u8t (TELEXO + (o >>> 2))) [TO_ENV_ACT, o &&& 3, 0, 0],
         WireOp.i2c (u8t (TELEXO + (o >>> 2))) [TO_OSC_SET, o &&& 3, 0, 0]]) := by
  have hno : ¬ o ≥ MAX_TXO_OUTPUT_COUNT := by omega
  by_cases hm : m = 0 <;>
    simp [set_txo_mode, set_txo_mode_impl, send_txo_command, i2c_leader_tx, hno, hl, hm,
      upd1_same, toU16]

/-- Witness for `C4_txo_mode_tracked_but_unconditional` at output 2, mode 0. -/
theorem C4_txo_mode_tracked_but_unconditional_witness :
    (set_txo_mode testState 2 0).txoMode 2 = 0 ∧
    (set_txo_mode testState 2 0).trace = testState.trace ++
      (if (0 : Nat) ≠ 0 then
        [WireOp.i2c (u8t (TELEXO + (2 >>> 2))) [TO_ENV_ACT, 2 &&& 3, 0, 1]]
      else
        [WireOp.i2c (u8t (TELEXO + (2 >>> 2))) [TO_ENV_ACT, 2 &&& 3, 0, 0],
         WireOp.i2c (u8t (TELEXO + (2 >>> 2))) [TO_OSC_SET, 2 &&& 3, 0, 0]]) :=
  C4_txo_mode_tracked_but_unconditional testState 2 0 (by decide) rfl

-- ----------------------------------------------------------------------------
-- C5: disting EX note-off before note-on

/-- C5 counterexample: the claim says the note-off emitted at the start of a
disting EX dispatch carries the note number of the *last* note sent to that
output.  After a first dispatch that sent note 48, a second dispatch at a
different pitch emits a leading note-off carrying its *own* note number 50,
not 48. -/
theorem C5_disting_off_carries_new_note :
    (send_disting_ex_note testState 0 3277 100).trace.head? =
      some (WireOp.i2c DISTING_EX_1 [0x6A, 0, 48]) ∧
    ((send_disting_ex_note (send_disting_ex_note testState 0 3277 100) 0 0 100).trace.drop 3).head? =
      some (WireOp.i2c DISTING_EX_1 [0x6A, 0, 50]) := by
  decide

/-- C5 amended: every disting EX dispatch first emits a note-off command
carrying the note number derived from the *current* (transposed) pitch, and
when the scaled volume is nonzero the pitch and note-on commands for that same
note number follow immediately. -/
theorem C5_disting_off_before_on (st : MPState) (o : Nat) (pitch : Int) (volume : Nat)
    (ho : o < MAX_DISTING_EX_OUTPUT_COUNT) (hl : st.isI2cLeader = true) :
    (send_disting_ex_note st o pitch volume).trace = st.trace ++
      (let vol := volume * st.distingExMaxVolume o / MAX_LEVEL
       let p := wrapS16 (pitch + st.distingExTranspose o - 3277)
       let note0 := u8t (pitch_to_note (toU16 p) + 48)
       let note := if note0 > 127 then 127 else note0
       let addr := u8t (DISTING_EX_1 + (o >>> 3))
       let ch := o &&& 7
       [WireOp.i2c addr [0x6A, ch, note]] ++
         (if vol ≠ 0 then
           [WireOp.i2c addr [0x68, ch, note, toU16 p >>> 8, toU16 p &&& 0xff],
            WireOp.i2c addr [0x69, ch, note, (vol % 65536) >>> 8, vol &&& 0xff]]
          else [])) := by
  have hno : ¬ o ≥ MAX_DISTING_EX_OUTPUT_COUNT := by omega
  by_cases hv : volume * st.distingExMaxVolume o / MAX_LEVEL = 0 <;>
    simp [send_disting_ex_note, i2c_leader_tx, hno, hl, hv]

/-- Witness for `C5_disting_off_before_on` at output 0, pitch 3277, volume 100. -/
theorem C5_disting_off_before_on_witness :
    (send_disting_ex_note testState 0 3277 100).trace = testState.trace ++
      (let vol := 100 * testState.distingExMaxVolume 0 / MAX_LEVEL
       let p := wrapS16 (3277 + testState.distingExTranspose 0 - 3277)
       let note0 := u8t (pitch_to_note (toU16 p) + 48)
       let note := if note0 > 127 then 127 else note0
       let addr := u8t (DISTING_EX_1 + (0 >>> 3))
       let ch := 0 &&& 7
       [WireOp.i2c addr [0x6A, ch, note]] ++
         (if vol ≠ 0 then
           [WireOp.i2c addr [0x68, ch, note, toU16 p >>> 8, toU16 p &&& 0xff],
            WireOp.i2c addr [0x69, ch, note, (vol % 65536) >>> 8, vol &&& 0xff]]
          else [])) :=
  C5_disting_off_before_on testState 0 3277 100 (by decide) rfl

-- ----------------------------------------------------------------------------
-- C2 counterexample: volume-zero note-on on the TXO CV/Gate family

/-- C2 counterexample: with voice 0 mapped to TXO CV/Gate output 0,
`note_on_v(0, 0, 0)` (volume zero) does *not* produce the wire effect of
`note_off(0)`: it ends by driving the TXO trigger high (`TO_TR 1`), while
`note_off` drives it low (`TO_TR 0`). -/
theorem C2_txo_cv_gate_volume_zero_not_off :
    (note_on_v (map_voice testState 0 VOICE_TXO_CV_GATE 0 true) 0 0 0).trace ≠
      (note_off (map_voice testState 0 VOICE_TXO_CV_GATE 0 true) 0).trace ∧
    (note_on_v (map_voice testState 0 VOICE_TXO_CV_GATE 0 true) 0 0 0).trace.getLast? =
      some (WireOp.i2c TELEXO [TO_TR, 0, 0, 1]) ∧
    (note_off (map_voice testState 0 VOICE_TXO_CV_GATE 0 true) 0).trace.getLast? =
      some (WireOp.i2c TELEXO [TO_TR, 0, 0, 0]) := by
  decide

-- ----------------------------------------------------------------------------
-- C10: ER301 gate commands are transmitted twice

/-- C10: every ER301 gate transition transmits the identical 4-byte gate
command twice in immediate succession, and a single mapped ER301 note-on
yields exactly four transactions: pitch CV, volume CV into the second bank at
`output + 16`, then the gate-high command twice. -/
theorem C10_er301_gate_double_tx (st : MPState) (o : Nat) (b : Bool)
    (ho : o < MAX_ER301_COUNT) (hl : st.isI2cLeader = true) :
    ((set_er301_gate st o b).trace = st.trace ++
      [WireOp.i2c ER301_1 [TO_TR, o, 0, if b then 1 else 0],
       WireOp.i2c ER301_1 [TO_TR, o, 0, if b then 1 else 0]]) ∧
    (note_on_v (map_voice testState 0 VOICE_ER301 0 true) 0 100 8191).trace =
      [WireOp.i2c ER301_1 [TO_CV_SET, 0, 243, 151],
       WireOp.i2c ER301_1 [TO_CV_SET, 16, 31, 255],
       WireOp.i2c ER301_1 [TO_TR, 0, 0, 1],
       WireOp.i2c ER301_1 [TO_TR, 0, 0, 1]] := by
  constructor
  · have hno : ¬ o ≥ MAX_ER301_COUNT := by omega
    simp [set_er301_gate, set_er301_gate_impl, i2c_leader_tx, hno, hl]
  · decide

/-- Witness for `C10_er301_gate_double_tx` at output 3, gate high. -/
theorem C10_er301_gate_double_tx_witness :
    (set_er301_gate testState 3 true).trace = testState.trace ++
      [WireOp.i2c ER301_1 [TO_TR, 3, 0, if true then 1 else 0],
       WireOp.i2c ER301_1 [TO_TR, 3, 0, if true then 1 else 0]] :=
  (C10_er301_gate_double_tx testState 3 true (by decide) rfl).1

-- ----------------------------------------------------------------------------
-- C6: mapping bit vs. mute independence

/-- C6: after `map_voice(v,f,o,true)` the combined predicate `_is_voice_mapped`
holds; muting the family makes it false; un-muting restores it.  `mute_device`
never alters any routing bit (the whole `voice_maps` array is unchanged) and
leaves every other family's mute flag alone. -/
theorem C6_mapping_mute_independence (st : MPState) (v f o : Nat)
    (hv : v < MAX_VOICES_COUNT) (hf : f < MAX_DEVICE_COUNT) (ho : o < MAX_OUTPUT_COUNT)
    (hon : st.deviceOn f ≠ 0) :
    is_voice_mapped (map_voice st v f o true) v f o = true ∧
    is_voice_mapped (mute_device (map_voice st v f o true) f true) v f o = false ∧
    is_voice_mapped (mute_device (mute_device (map_voice st v f o true) f true) f false) v f o
      = true ∧
    (mute_device (map_voice st v f o true) f true).voiceMaps
      = (map_voice st v f o true).voiceMaps ∧
    (mute_device (mute_device (map_voice st v f o true) f true) f false).voiceMaps
      = (map_voice st v f o true).voiceMaps ∧
    (∀ f', f' ≠ f → (mute_device (map_voice st v f o true) f true).deviceOn f'
      = st.deviceOn f') := by
  have hv' : v < 32 := hv
  have hf' : f < 10 := hf
  have ho' : o < 8 := ho
  have hg : ¬(v ≥ MAX_VOICES_COUNT ∨ f ≥ MAX_DEVICE_COUNT ∨ o > MAX_OUTPUT_COUNT) := by
    show ¬(v ≥ 32 ∨ f ≥ 10 ∨ o > 8)
    omega
  have hgf : ¬(f ≥ MAX_DEVICE_COUNT) := by
    show ¬(f ≥ 10)
    omega
  refine ⟨?_, ?_, ?_, ?_, ?_, ?_⟩
  · simp [map_voice, is_voice_mapped, if_neg hg, updMap_same, hon,
      or_shift_and_shift_ne_zero]
  · simp [map_voice, mute_device, is_voice_mapped, if_neg hg, if_neg hgf, upd1_same]
  · simp [map_voice, mute_device, is_voice_mapped, if_neg hg, if_neg hgf, upd1_same,
      updMap_same, or_shift_and_shift_ne_zero]
  · simp [mute_device, if_neg hgf]
  · simp [mute_device, if_neg hgf]
  · intro f' hf'ne
    simp [map_voice, mute_device, if_neg hg, if_neg hgf, upd1_other _ _ _ _ hf'ne]

/-- Witness for `C6_mapping_mute_independence` at voice 1, family 2, output 3. -/
theorem C6_mapping_mute_independence_witness :
    is_voice_mapped (map_voice testState 1 2 3 true) 1 2 3 = true ∧
    is_voice_mapped (mute_device (map_voice testState 1 2 3 true) 2 true) 1 2 3 = false ∧
    is_voice_mapped (mute_device (mute_device (map_voice testState 1 2 3 true) 2 true) 2 false)
      1 2 3 = true ∧
    (mute_device (map_voice testState 1 2 3 true) 2 true).voiceMaps
      = (map_voice testState 1 2 3 true).voiceMaps ∧
    (mute_device (mute_device (map_voice testState 1 2 3 true) 2 true) 2 false).voiceMaps
      = (map_voice testState 1 2 3 true).voiceMaps ∧
    (∀ f', f' ≠ 2 → (mute_device (map_voice testState 1 2 3 true) 2 true).deviceOn f'
      = testState.deviceOn f') :=
  C6_mapping_mute_independence testState 1 2 3 (by decide) (by decide) (by decide) (by decide)

-- ----------------------------------------------------------------------------
-- routing-state preservation: no encoder touches the routing table, the mute
-- flags or the i2c role

theorem sameRouting_refl (a : MPState) : sameRouting a a := ⟨rfl, rfl, rfl⟩

theorem sameRouting_trans {a b c : MPState}
    (h1 : sameRouting a b) (h2 : sameRouting b c) : sameRouting a c :=
  ⟨h1.1.trans h2.1, h1.2.1.trans h2.2.1, h1.2.2.trans h2.2.2⟩

theorem is_voice_mapped_congr {a b : MPState} (h : sameRouting a b) (v d o : Nat) :
    is_voice_mapped a v d o = is_voice_mapped b v d o := by
  obtain ⟨h1, h2, -⟩ := h
  simp [is_voice_mapped, h1, h2]


-- ----------------------------------------------------------------------------
-- frame lemmas: no encoder touches the routing table, the mute flags, the i2c
-- role, the TXO dirty records or the last-pitch array (each changes only its
-- own trace / cvValues / txoMode / jfMode fields)

@[simp] theorem i2c_leader_tx_voiceMaps (st : MPState) (a : Nat) (d : List Nat) :
    (i2c_leader_tx st a d).voiceMaps = st.voiceMaps := by simp only [i2c_leader_tx]; split_ifs <;> simp

@[simp] theorem i2c_leader_tx_deviceOn (st : MPState) (a : Nat) (d : List Nat) :
    (i2c_leader_tx st a d).deviceOn = st.deviceOn := by simp only [i2c_leader_tx]; split_ifs <;> simp

@[simp] theorem i2c_leader_tx_isI2cLeader (st : MPState) (a : Nat) (d : List Nat) :
    (i2c_leader_tx st a d).isI2cLeader = st.isI2cLeader := by simp only [i2c_leader_tx]; split_ifs <;> simp

@[simp] theorem i2c_leader_tx_txoRefresh (st : MPState) (a : Nat) (d : List Nat) :
    (i2c_leader_tx st a d).txoRefresh = st.txoRefresh := by simp only [i2c_leader_tx]; split_ifs <;> simp

@[simp] theorem i2c_leader_tx_lastPitch (st : MPState) (a : Nat) (d : List Nat) :
    (i2c_leader_tx st a d).lastPitch = st.lastPitch := by simp only [i2c_leader_tx]; split_ifs <;> simp

@[simp] theorem set_cv_impl_voiceMaps (st : MPState) (o : Nat) (x : Int) :
    (set_cv_impl st o x).voiceMaps = st.voiceMaps := by simp only [set_cv_impl]; split_ifs <;> simp

@[simp] theorem set_cv_impl_deviceOn (st : MPState) (o : Nat) (x : Int) :
    (set_cv_impl st o x).deviceOn = st.deviceOn := by simp only [set_cv_impl]; split_ifs <;> simp

@[simp] theorem set_cv_impl_isI2cLeader (st : MPState) (o : Nat) (x : Int) :
    (set_cv_impl st o x).isI2cLeader = st.isI2cLeader := by simp only [set_cv_impl]; split_ifs <;> simp

@[simp] theorem set_cv_impl_txoRefresh (st : MPState) (o : Nat) (x : Int) :
    (set_cv_impl st o x).txoRefresh = st.txoRefresh := by simp only [set_cv_impl]; split_ifs <;> simp

@[simp] theorem set_cv_impl_lastPitch (st : MPState) (o : Nat) (x : Int) :
    (set_cv_impl st o x).lastPitch = st.lastPitch := by simp only [set_cv_impl]; split_ifs <;> simp

@[simp] theorem set_gate_impl_voiceMaps (st : MPState) (o : Nat) (b : Bool) :
    (set_gate_impl st o b).voiceMaps = st.voiceMaps := by simp only [set_gate_impl]; split_ifs <;> simp

@[simp] theorem set_gate_impl_deviceOn (st : MPState) (o : Nat) (b : Bool) :
    (set_gate_impl st o b).deviceOn = st.deviceOn := by simp only [set_gate_impl]; split_ifs <;> simp

@[simp] theorem set_gate_impl_isI2cLeader (st : MPState) (o : Nat) (b : Bool) :
    (set_gate_impl st o b).isI2cLeader = st.isI2cLeader := by simp only [set_gate_impl]; split_ifs <;> simp

@[simp] theorem set_gate_impl_txoRefresh (st : MPState) (o : Nat) (b : Bool) :
    (set_gate_impl st o b).txoRefresh = st.txoRefresh := by simp only [set_gate_impl]; split_ifs <;> simp

@[simp] theorem set_gate_impl_lastPitch (st : MPState) (o : Nat) (b : Bool) :
    (set_gate_impl st o b).lastPitch = st.lastPitch := by simp only [set_gate_impl]; split_ifs <;> simp

@[simp] theorem send_note_voiceMaps (st : MPState) (o : Nat) (p : Int) (vol : Nat) :
    (send_note st o p vol).voiceMaps = st.voiceMaps := by simp only [send_note]; split_ifs <;> simp

@[simp] theorem send_note_deviceOn (st : MPState) (o : Nat) (p : Int) (vol : Nat) :
    (send_note st o p vol).deviceOn = st.deviceOn := by simp only [send_note]; split_ifs <;> simp

@[simp] theorem send_note_isI2cLeader (st : MPState) (o : Nat) (p : Int) (vol : Nat) :
    (send_note st o p vol).isI2cLeader = st.isI2cLeader := by simp only [send_note]; split_ifs <;> simp

@[simp] theorem send_note_txoRefresh (st : MPState) (o : Nat) (p : Int) (vol : Nat) :
    (send_note st o p vol).txoRefresh = st.txoRefresh := by simp only [send_note]; split_ifs <;> simp

@[simp] theorem send_note_lastPitch (st : MPState) (o : Nat) (p : Int) (vol : Nat) :
    (send_note st o p vol).lastPitch = st.lastPitch := by simp only [send_note]; split_ifs <;> simp

@[simp] theorem set_er301_cv_impl_voiceMaps (st : MPState) (o : Nat) (x : Int) :
    (set_er301_cv_impl st o x).voiceMaps = st.voiceMaps := by simp only [set_er301_cv_impl]; split_ifs <;> simp

@[simp] theorem set_er301_cv_impl_deviceOn (st : MPState) (o : Nat) (x : Int) :
    (set_er301_cv_impl st o x).deviceOn = st.deviceOn := by simp only [set_er301_cv_impl]; split_ifs <;> simp

@[simp] theorem set_er301_cv_impl_isI2cLeader (st : MPState) (o : Nat) (x : Int) :
    (set_er301_cv_impl st o x).isI2cLeader = st.isI2cLeader := by simp only [set_er301_cv_impl]; split_ifs <;> simp

@[simp] theorem set_er301_cv_impl_txoRefresh (st : MPState) (o : Nat) (x : Int) :
    (set_er301_cv_impl st o x).txoRefresh = st.txoRefresh := by simp only [set_er301_cv_impl]; split_ifs <;> simp

@[simp] theorem set_er301_cv_impl_lastPitch (st : MPState) (o : Nat) (x : Int) :
    (set_er301_cv_impl st o x).lastPitch = st.lastPitch := by simp only [set_er301_cv_impl]; split_ifs <;> simp

@[simp] theorem set_er301_gate_impl_voiceMaps (st : MPState) (o : Nat) (b : Bool) :
    (set_er301_gate_impl st o b).voiceMaps = st.voiceMaps := by simp only [set_er301_gate_impl]; split_ifs <;> simp

@[simp] theorem set_er301_gate_impl_deviceOn (st : MPState) (o : Nat) (b : Bool) :
    (set_er301_gate_impl st o b).deviceOn = st.deviceOn := by simp only [set_er301_gate_impl]; split_ifs <;> simp

@[simp] theorem set_er301_gate_impl_isI2cLeader (st : MPState) (o : Nat) (b : Bool) :
    (set_er301_gate_impl st o b).isI2cLeader = st.isI2cLeader := by simp only [set_er301_gate_impl]; split_ifs <;> simp

@[simp] theorem set_er301_gate_impl_txoRefresh (st : MPState) (o : Nat) (b : Bool) :
    (set_er301_gate_impl st o b).txoRefresh = st.txoRefresh := by simp only [set_er301_gate_impl]; split_ifs <;> simp

@[simp] theorem set_er301_gate_impl_lastPitch (st : MPState) (o : Nat) (b : Bool) :
    (set_er301_gate_impl st o b).lastPitch = st.lastPitch := by simp only [set_er301_gate_impl]; split_ifs <;> simp

@[simp] theorem send_er301_note_voiceMaps (st : MPState) (o : Nat) (p : Int) (vol : Nat) :
    (send_er301_note st o p vol).voiceMaps = st.voiceMaps := by simp only [send_er301_note]; split_ifs <;> simp

@[simp] theorem send_er301_note_deviceOn (st : MPState) (o : Nat) (p : Int) (vol : Nat) :
    (send_er301_note st o p vol).deviceOn = st.deviceOn := by simp only [send_er301_note]; split_ifs <;> simp

@[simp] theorem send_er301_note_isI2cLeader (st : MPState) (o : Nat) (p : Int) (vol : Nat) :
    (send_er301_note st o p vol).isI2cLeader = st.isI2cLeader := by simp only [send_er301_note]; split_ifs <;> simp

@[simp] theorem send_er301_note_txoRefresh (st : MPState) (o : Nat) (p : Int) (vol : Nat) :
    (send_er301_note st o p vol).txoRefresh = st.txoRefresh := by simp only [send_er301_note]; split_ifs <;> simp

@[simp] theorem send_er301_note_lastPitch (st : MPState) (o : Nat) (p : Int) (vol : Nat) :
    (send_er301_note st o p vol).lastPitch = st.lastPitch := by simp only [send_er301_note]; split_ifs <;> simp

@[simp] theorem set_jf_mode_impl_voiceMaps (st : MPState) (m : Nat) :
    (set_jf_mode_impl st m).voiceMaps = st.voiceMaps := by simp only [set_jf_mode_impl]; split_ifs <;> simp

@[simp] theorem set_jf_mode_impl_deviceOn (st : MPState) (m : Nat) :
    (set_jf_mode_impl st m).deviceOn = st.deviceOn := by simp only [set_jf_mode_impl]; split_ifs <;> simp

@[simp] theorem set_jf_mode_impl_isI2cLeader (st : MPState) (m : Nat) :
    (set_jf_mode_impl st m).isI2cLeader = st.isI2cLeader := by simp only [set_jf_mode_impl]; split_ifs <;> simp

@[simp] theorem set_jf_mode_impl_txoRefresh (st : MPState) (m : Nat) :
    (set_jf_mode_impl st m).txoRefresh = st.txoRefresh := by simp only [set_jf_mode_impl]; split_ifs <;> simp

@[simp] theorem set_jf_mode_impl_lastPitch (st : MPState) (m : Nat) :
    (set_jf_mode_impl st m).lastPitch = st.lastPitch := by simp only [set_jf_mode_impl]; split_ifs <;> simp

@[simp] theorem set_jf_gate_impl_voiceMaps (st : MPState) (o : Nat) (b : Bool) :
    (set_jf_gate_impl st o b).voiceMaps = st.voiceMaps := by simp only [set_jf_gate_impl]; split_ifs <;> simp

@[simp] theorem set_jf_gate_impl_deviceOn (st : MPState) (o : Nat) (b : Bool) :
    (set_jf_gate_impl st o b).deviceOn = st.deviceOn := by simp only [set_jf_gate_impl]; split_ifs <;> simp

@[simp] theorem set_jf_gate_impl_isI2cLeader (st : MPState) (o : Nat) (b : Bool) :
    (set_jf_gate_impl st o b).isI2cLeader = st.isI2cLeader := by simp only [set_jf_gate_impl]; split_ifs <;> simp

@[simp] theorem set_jf_gate_impl_txoRefresh (st : MPState) (o : Nat) (b : Bool) :
    (set_jf_gate_impl st o b).txoRefresh = st.txoRefresh := by simp only [set_jf_gate_impl]; split_ifs <;> simp

@[simp] theorem set_jf_gate_impl_lastPitch (st : MPState) (o : Nat) (b : Bool) :
    (set_jf_gate_impl st o b).lastPitch = st.lastPitch := by simp only [set_jf_gate_impl]; split_ifs <;> simp

@[simp] theorem send_jf_note_voiceMaps (st : MPState) (o : Nat) (p : Int) (vol : Nat) :
    (send_jf_note st o p vol).voiceMaps = st.voiceMaps := by simp only [send_jf_note]; split_ifs <;> simp

@[simp] theorem send_jf_note_deviceOn (st : MPState) (o : Nat) (p : Int) (vol : Nat) :
    (send_jf_note st o p vol).deviceOn = st.deviceOn := by simp only [send_jf_note]; split_ifs <;> simp

@[simp] theorem send_jf_note_isI2cLeader (st : MPState) (o : Nat) (p : Int) (vol : Nat) :
    (send_jf_note st o p vol).isI2cLeader = st.isI2cLeader := by simp only [send_jf_note]; split_ifs <;> simp

@[simp] theorem send_jf_note_txoRefresh (st : MPState) (o : Nat) (p : Int) (vol : Nat) :
    (send_jf_note st o p vol).txoRefresh = st.txoRefresh := by simp only [send_jf_note]; split_ifs <;> simp

@[simp] theorem send_jf_note_lastPitch (st : MPState) (o : Nat) (p : Int) (vol : Nat) :
    (send_jf_note st o p vol).lastPitch = st.lastPitch := by simp only [send_jf_note]; split_ifs <;> simp

@[simp] theorem send_txo_command_voiceMaps (st : MPState) (o c : Nat) (x : Int) :
    (send_txo_command st o c x).voiceMaps = st.voiceMaps := by simp only [send_txo_command]; split_ifs <;> simp

@[simp] theorem send_txo_command_deviceOn (st : MPState) (o c : Nat) (x : Int) :
    (send_txo_command st o c x).deviceOn = st.deviceOn := by simp only [send_txo_command]; split_ifs <;> simp

@[simp] theorem send_txo_command_isI2cLeader (st : MPState) (o c : Nat) (x : Int) :
    (send_txo_command st o c x).isI2cLeader = st.isI2cLeader := by simp only [send_txo_command]; split_ifs <;> simp

@[simp] theorem send_txo_command_txoRefresh (st : MPState) (o c : Nat) (x : Int) :
    (send_txo_command st o c x).txoRefresh = st.txoRefresh := by simp only [send_txo_command]; split_ifs <;> simp

@[simp] theorem send_txo_command_lastPitch (st : MPState) (o c : Nat) (x : Int) :
    (send_txo_command st o c x).lastPitch = st.lastPitch := by simp only [send_txo_command]; split_ifs <;> simp

@[simp] theorem set_txo_mode_impl_voiceMaps (st : MPState) (o m : Nat) :
    (set_txo_mode_impl st o m).voiceMaps = st.voiceMaps := by simp only [set_txo_mode_impl]; split_ifs <;> simp

@[simp] theorem set_txo_mode_impl_deviceOn (st : MPState) (o m : Nat) :
    (set_txo_mode_impl st o m).deviceOn = st.deviceOn := by simp only [set_txo_mode_impl]; split_ifs <;> simp

@[simp] theorem set_txo_mode_impl_isI2cLeader (st : MPState) (o m : Nat) :
    (set_txo_mode_impl st o m).isI2cLeader = st.isI2cLeader := by simp only [set_txo_mode_impl]; split_ifs <;> simp

@[simp] theorem set_txo_mode_impl_txoRefresh (st : MPState) (o m : Nat) :
    (set_txo_mode_impl st o m).txoRefresh = st.txoRefresh := by simp only [set_txo_mode_impl]; split_ifs <;> simp

@[simp] theorem set_txo_mode_impl_lastPitch (st : MPState) (o m : Nat) :
    (set_txo_mode_impl st o m).lastPitch = st.lastPitch := by simp only [set_txo_mode_impl]; split_ifs <;> simp

@[simp] theorem send_txo_note_voiceMaps (st : MPState) (o : Nat) (p : Int) (vol : Nat) :
    (send_txo_note st o p vol).voiceMaps = st.voiceMaps := by simp only [send_txo_note]; split_ifs <;> simp

@[simp] theorem send_txo_note_deviceOn (st : MPState) (o : Nat) (p : Int) (vol : Nat) :
    (send_txo_note st o p vol).deviceOn = st.deviceOn := by simp only [send_txo_note]; split_ifs <;> simp

@[simp] theorem send_txo_note_isI2cLeader (st : MPState) (o : Nat) (p : Int) (vol : Nat) :
    (send_txo_note st o p vol).isI2cLeader = st.isI2cLeader := by simp only [send_txo_note]; split_ifs <;> simp

@[simp] theorem send_txo_note_txoRefresh (st : MPState) (o : Nat) (p : Int) (vol : Nat) :
    (send_txo_note st o p vol).txoRefresh = st.txoRefresh := by simp only [send_txo_note]; split_ifs <;> simp

@[simp] theorem send_txo_note_lastPitch (st : MPState) (o : Nat) (p : Int) (vol : Nat) :
    (send_txo_note st o p vol).lastPitch = st.lastPitch := by simp only [send_txo_note]; split_ifs <;> simp

@[simp] theorem set_txo_cv_impl_voiceMaps (st : MPState) (o : Nat) (x : Int) :
    (set_txo_cv_impl st o x).voiceMaps = st.voiceMaps := by simp only [set_txo_cv_impl]; simp

@[simp] theorem set_txo_cv_impl_deviceOn (st : MPState) (o : Nat) (x : Int) :
    (set_txo_cv_impl st o x).deviceOn = st.deviceOn := by simp only [set_txo_cv_impl]; simp

@[simp] theorem set_txo_cv_impl_isI2cLeader (st : MPState) (o : Nat) (x : Int) :
    (set_txo_cv_impl st o x).isI2cLeader = st.isI2cLeader := by simp only [set_txo_cv_impl]; simp

@[simp] theorem set_txo_cv_impl_txoRefresh (st : MPState) (o : Nat) (x : Int) :
    (set_txo_cv_impl st o x).txoRefresh = st.txoRefresh := by simp only [set_txo_cv_impl]; simp

@[simp] theorem set_txo_cv_impl_lastPitch (st : MPState) (o : Nat) (x : Int) :
    (set_txo_cv_impl st o x).lastPitch = st.lastPitch := by simp only [set_txo_cv_impl]; simp

@[simp] theorem set_txo_gate_impl_voiceMaps (st : MPState) (o : Nat) (b : Bool) :
    (set_txo_gate_impl st o b).voiceMaps = st.voiceMaps := by simp only [set_txo_gate_impl]; split_ifs <;> simp

@[simp] theorem set_txo_gate_impl_deviceOn (st : MPState) (o : Nat) (b : Bool) :
    (set_txo_gate_impl st o b).deviceOn = st.deviceOn := by simp only [set_txo_gate_impl]; split_ifs <;> simp

@[simp] theorem set_txo_gate_impl_isI2cLeader (st : MPState) (o : Nat) (b : Bool) :
    (set_txo_gate_impl st o b).isI2cLeader = st.isI2cLeader := by simp only [set_txo_gate_impl]; split_ifs <;> simp

@[simp] theorem set_txo_gate_impl_txoRefresh (st : MPState) (o : Nat) (b : Bool) :
    (set_txo_gate_impl st o b).txoRefresh = st.txoRefresh := by simp only [set_txo_gate_impl]; split_ifs <;> simp

@[simp] theorem set_txo_gate_impl_lastPitch (st : MPState) (o : Nat) (b : Bool) :
    (set_txo_gate_impl st o b).lastPitch = st.lastPitch := by simp only [set_txo_gate_impl]; split_ifs <;> simp

@[simp] theorem send_disting_ex_note_voiceMaps (st : MPState) (o : Nat) (p : Int) (vol : Nat) :
    (send_disting_ex_note st o p vol).voiceMaps = st.voiceMaps := by simp only [send_disting_ex_note]; split_ifs <;> simp

@[simp] theorem send_disting_ex_note_deviceOn (st : MPState) (o : Nat) (p : Int) (vol : Nat) :
    (send_disting_ex_note st o p vol).deviceOn = st.deviceOn := by simp only [send_disting_ex_note]; split_ifs <;> simp

@[simp] theorem send_disting_ex_note_isI2cLeader (st : MPState) (o : Nat) (p : Int) (vol : Nat) :
    (send_disting_ex_note st o p vol).isI2cLeader = st.isI2cLeader := by simp only [send_disting_ex_note]; split_ifs <;> simp

@[simp] theorem send_disting_ex_note_txoRefresh (st : MPState) (o : Nat) (p : Int) (vol : Nat) :
    (send_disting_ex_note st o p vol).txoRefresh = st.txoRefresh := by simp only [send_disting_ex_note]; split_ifs <;> simp

@[simp] theorem send_disting_ex_note_lastPitch (st : MPState) (o : Nat) (p : Int) (vol : Nat) :
    (send_disting_ex_note st o p vol).lastPitch = st.lastPitch := by simp only [send_disting_ex_note]; split_ifs <;> simp

@[simp] theorem send_ex_midi_1_note_voiceMaps (st : MPState) (o : Nat) (p : Int) (vol : Nat) :
    (send_ex_midi_1_note st o p vol).voiceMaps = st.voiceMaps := by simp only [send_ex_midi_1_note]; split_ifs <;> simp

@[simp] theorem send_ex_midi_1_note_deviceOn (st : MPState) (o : Nat) (p : Int) (vol : Nat) :
    (send_ex_midi_1_note st o p vol).deviceOn = st.deviceOn := by simp only [send_ex_midi_1_note]; split_ifs <;> simp

@[simp] theorem send_ex_midi_1_note_isI2cLeader (st : MPState) (o : Nat) (p : Int) (vol : Nat) :
    (send_ex_midi_1_note st o p vol).isI2cLeader = st.isI2cLeader := by simp only [send_ex_midi_1_note]; split_ifs <;> simp

@[simp] theorem send_ex_midi_1_note_txoRefresh (st : MPState) (o : Nat) (p : Int) (vol : Nat) :
    (send_ex_midi_1_note st o p vol).txoRefresh = st.txoRefresh := by simp only [send_ex_midi_1_note]; split_ifs <;> simp

@[simp] theorem send_ex_midi_1_note_lastPitch (st : MPState) (o : Nat) (p : Int) (vol : Nat) :
    (send_ex_midi_1_note st o p vol).lastPitch = st.lastPitch := by simp only [send_ex_midi_1_note]; split_ifs <;> simp

@[simp] theorem send_ex_midi_ch_note_voiceMaps (st : MPState) (o : Nat) (p : Int) (vol : Nat) :
    (send_ex_midi_ch_note st o p vol).voiceMaps = st.voiceMaps := by simp only [send_ex_midi_ch_note]; split_ifs <;> simp

@[simp] theorem send_ex_midi_ch_note_deviceOn (st : MPState) (o : Nat) (p : Int) (vol : Nat) :
    (send_ex_midi_ch_note st o p vol).deviceOn = st.deviceOn := by simp only [send_ex_midi_ch_note]; split_ifs <;> simp

@[simp] theorem send_ex_midi_ch_note_isI2cLeader (st : MPState) (o : Nat) (p : Int) (vol : Nat) :
    (send_ex_midi_ch_note st o p vol).isI2cLeader = st.isI2cLeader := by simp only [send_ex_midi_ch_note]; split_ifs <;> simp

@[simp] theorem send_ex_midi_ch_note_txoRefresh (st : MPState) (o : Nat) (p : Int) (vol : Nat) :
    (send_ex_midi_ch_note st o p vol).txoRefresh = st.txoRefresh := by simp only [send_ex_midi_ch_note]; split_ifs <;> simp

@[simp] theorem send_ex_midi_ch_note_lastPitch (st : MPState) (o : Nat) (p : Int) (vol : Nat) :
    (send_ex_midi_ch_note st o p vol).lastPitch = st.lastPitch := by simp only [send_ex_midi_ch_note]; split_ifs <;> simp

@[simp] theorem send_i2c2midi_1_note_voiceMaps (st : MPState) (o : Nat) (p : Int) (vol : Nat) :
    (send_i2c2midi_1_note st o p vol).voiceMaps = st.voiceMaps := by simp only [send_i2c2midi_1_note]; split_ifs <;> simp

@[simp] theorem send_i2c2midi_1_note_deviceOn (st : MPState) (o : Nat) (p : Int) (vol : Nat) :
    (send_i2c2midi_1_note st o p vol).deviceOn = st.deviceOn := by simp only [send_i2c2midi_1_note]; split_ifs <;> simp

@[simp] theorem send_i2c2midi_1_note_isI2cLeader (st : MPState) (o : Nat) (p : Int) (vol : Nat) :
    (send_i2c2midi_1_note st o p vol).isI2cLeader = st.isI2cLeader := by simp only [send_i2c2midi_1_note]; split_ifs <;> simp

@[simp] theorem send_i2c2midi_1_note_txoRefresh (st : MPState) (o : Nat) (p : Int) (vol : Nat) :
    (send_i2c2midi_1_note st o p vol).txoRefresh = st.txoRefresh := by simp only [send_i2c2midi_1_note]; split_ifs <;> simp

@[simp] theorem send_i2c2midi_1_note_lastPitch (st : MPState) (o : Nat) (p : Int) (vol : Nat) :
    (send_i2c2midi_1_note st o p vol).lastPitch = st.lastPitch := by simp only [send_i2c2midi_1_note]; split_ifs <;> simp

@[simp] theorem send_i2c2midi_ch_note_voiceMaps (st : MPState) (o : Nat) (p : Int) (vol : Nat) :
    (send_i2c2midi_ch_note st o p vol).voiceMaps = st.voiceMaps := by simp only [send_i2c2midi_ch_note]; split_ifs <;> simp

@[simp] theorem send_i2c2midi_ch_note_deviceOn (st : MPState) (o : Nat) (p : Int) (vol : Nat) :
    (send_i2c2midi_ch_note st o p vol).deviceOn = st.deviceOn := by simp only [send_i2c2midi_ch_note]; split_ifs <;> simp

@[simp] theorem send_i2c2midi_ch_note_isI2cLeader (st : MPState) (o : Nat) (p : Int) (vol : Nat) :
    (send_i2c2midi_ch_note st o p vol).isI2cLeader = st.isI2cLeader := by simp only [send_i2c2midi_ch_note]; split_ifs <;> simp

@[simp] theorem send_i2c2midi_ch_note_txoRefresh (st : MPState) (o : Nat) (p : Int) (vol : Nat) :
    (send_i2c2midi_ch_note st o p vol).txoRefresh = st.txoRefresh := by simp only [send_i2c2midi_ch_note]; split_ifs <;> simp

@[simp] theorem send_i2c2midi_ch_note_lastPitch (st : MPState) (o : Nat) (p : Int) (vol : Nat) :
    (send_i2c2midi_ch_note st o p vol).lastPitch = st.lastPitch := by simp only [send_i2c2midi_ch_note]; split_ifs <;> simp


theorem sameRouting_of_simps {a b : MPState}
    (h1 : a.voiceMaps = b.voiceMaps) (h2 : a.deviceOn = b.deviceOn)
    (h3 : a.isI2cLeader = b.isI2cLeader) : sameRouting a b := ⟨h1, h2, h3⟩

-- ----------------------------------------------------------------------------
-- routing-state preservation and dispatch-loop lemmas

/-- Two states agree on everything `_is_voice_mapped` reads plus the i2c role. -/

theorem loop_go_sameRouting (v d : Nat) (body : MPState → Nat → MPState)
    (hb : ∀ s o, sameRouting (body s o) s) :
    ∀ (l : List Nat) (st : MPState),
      sameRouting (l.foldl (fun s o => if is_voice_mapped s v d o then body s o else s) st) st
  | [], st => sameRouting_refl st
  | o :: l, st => by
      simp only [List.foldl_cons]
      split_ifs
      · exact sameRouting_trans (loop_go_sameRouting v d body hb l _) (hb st o)
      · exact loop_go_sameRouting v d body hb l st

theorem dispatchLoop_sameRouting (v d : Nat) (body : MPState → Nat → MPState)
    (hb : ∀ s o, sameRouting (body s o) s) (st : MPState) :
    sameRouting (dispatchLoop v d body st) st :=
  loop_go_sameRouting v d body hb _ st

theorem loop_go_id (v d : Nat) (body : MPState → Nat → MPState) :
    ∀ (l : List Nat) (st : MPState), (∀ o ∈ l, is_voice_mapped st v d o = false) →
      l.foldl (fun s o => if is_voice_mapped s v d o then body s o else s) st = st
  | [], _, _ => rfl
  | o :: l, st, h => by
      have ho := h o (List.mem_cons_self o l)
      simp only [List.foldl_cons, ho, Bool.false_eq_true, if_false]
      exact loop_go_id v d body l st fun o' ho' => h o' (List.mem_cons_of_mem _ ho')

/-- A dispatch loop over a family no currently-mapped output belongs to does
nothing. -/
theorem dispatchLoop_id (v d : Nat) (body : MPState → Nat → MPState) (st : MPState)
    (h : ∀ o ∈ List.range MAX_OUTPUT_COUNT, is_voice_mapped st v d o = false) :
    dispatchLoop v d body st = st :=
  loop_go_id v d body _ st h

theorem loop_go_single (v d B : Nat) (body : MPState → Nat → MPState)
    (hb : ∀ s o, sameRouting (body s o) s) :
    ∀ (l : List Nat), l.Nodup → ∀ (st : MPState),
      (∀ o ∈ l, (is_voice_mapped st v d o = true) ↔ o = B) →
      l.foldl (fun s o => if is_voice_mapped s v d o then body s o else s) st
        = if B ∈ l then body st B else st
  | [], _, st, _ => by simp
  | o :: l, hN, st, hg => by
      by_cases hoB : o = B
      · subst hoB
        have hgo : is_voice_mapped st v d o = true := (hg o (List.mem_cons_self o l)).mpr rfl
        simp only [List.foldl_cons, hgo, if_true]
        have hrest : ∀ o' ∈ l, is_voice_mapped (body st o) v d o' = false := by
          intro o' ho'
          rw [is_voice_mapped_congr (hb st o)]
          have hne : o' ≠ o := fun he => (List.nodup_cons.mp hN).1 (he ▸ ho')
          have := hg o' (List.mem_cons_of_mem _ ho')
          rcases Bool.eq_false_or_eq_true (is_voice_mapped st v d o') with ht | hf
          · exact absurd (this.mp ht) hne
          · exact hf
        rw [loop_go_id v d body l _ hrest]
        simp [List.mem_cons]
      · have hgo : is_voice_mapped st v d o = false := by
          rcases Bool.eq_false_or_eq_true (is_voice_mapped st v d o) with ht | hf
          · exact absurd ((hg o (List.mem_cons_self o l)).mp ht) hoB
          · exact hf
        simp only [List.foldl_cons, hgo, Bool.false_eq_true, if_false]
        rw [loop_go_single v d B body hb l (List.nodup_cons.mp hN).2 st
          (fun o' ho' => hg o' (List.mem_cons_of_mem _ ho'))]
        have hBo : B ≠ o := fun he => hoB he.symm
        exact if_congr (by simp [List.mem_cons, hBo]) rfl rfl

/-- A dispatch loop over a family whose only currently-mapped output is `B`
runs the body exactly once, at `B`. -/
theorem dispatchLoop_single (v d B : Nat) (body : MPState → Nat → MPState)
    (hb : ∀ s o, sameRouting (body s o) s) (st : MPState) (hB : B < MAX_OUTPUT_COUNT)
    (hg : ∀ o ∈ List.range MAX_OUTPUT_COUNT, (is_voice_mapped st v d o = true) ↔ o = B) :
    dispatchLoop v d body st = body st B := by
  unfold dispatchLoop
  rw [loop_go_single v d B body hb _ (List.nodup_range _) st hg]
  simp [List.mem_range, hB]

/-- `note_on_v` never changes the routing table, the mute flags or the i2c
role: only `last_pitch`, the per-device mutable state and the trace. -/
theorem note_on_v_sameRouting (st : MPState) (v : Nat) (p : Int) (vol : Nat) :
    sameRouting (note_on_v st v p vol) st := by
  simp only [note_on_v]
  split_ifs
  · exact sameRouting_refl st
  · refine sameRouting_trans (dispatchLoop_sameRouting _ _ _ ?_ _)
      (sameRouting_trans (dispatchLoop_sameRouting _ _ _ ?_ _)
      (sameRouting_trans (dispatchLoop_sameRouting _ _ _ ?_ _)
      (sameRouting_trans (dispatchLoop_sameRouting _ _ _ ?_ _)
      (sameRouting_trans (dispatchLoop_sameRouting _ _ _ ?_ _)
      (sameRouting_trans (dispatchLoop_sameRouting _ _ _ ?_ _)
      (sameRouting_trans (dispatchLoop_sameRouting _ _ _ ?_ _)
      (sameRouting_trans (dispatchLoop_sameRouting _ _ _ ?_ _)
      (sameRouting_trans (dispatchLoop_sameRouting _ _ _ ?_ _)
      (sameRouting_trans (dispatchLoop_sameRouting _ _ _ ?_ _)
        (sameRouting_of_simps rfl rfl rfl))))))))))
    all_goals exact fun s o => sameRouting_of_simps (by simp) (by simp) (by simp)

-- bounded bit-arithmetic facts used for the remap scenario, decided over the
-- 8-output range

theorem out_bits_low : ∀ o < 8, o >>> 3 = 0 ∧ o &&& 7 = o := by decide

theorem set_then_clear_bit : ∀ a < 8,
    ((0 ||| (1 <<< (a &&& 7))) &&& (0xff ^^^ (1 <<< (a &&& 7)))) = 0 := by decide

theorem single_bit_test : ∀ b < 8, ∀ o < 8,
    ((0 ||| (1 <<< (b &&& 7))) &&& (1 <<< (o &&& 7)) ≠ 0 ↔ o = b) := by decide

theorem updMap_other (m : Nat → Nat → Nat → Nat) (v d k b v' d' k' : Nat)
    (h : ¬(v' = v ∧ d' = d ∧ k' = k)) : updMap m v d k b v' d' k' = m v' d' k' := by
  simp only [updMap, if_neg h]

@[simp] theorem map_voice_deviceOn (st : MPState) (v d o : Nat) (b : Bool) :
    (map_voice st v d o b).deviceOn = st.deviceOn := by
  simp only [map_voice]
  split_ifs <;> rfl

@[simp] theorem map_voice_isI2cLeader (st : MPState) (v d o : Nat) (b : Bool) :
    (map_voice st v d o b).isI2cLeader = st.isI2cLeader := by
  simp only [map_voice]
  split_ifs <;> rfl

@[simp] theorem map_voice_trace (st : MPState) (v d o : Nat) (b : Bool) :
    (map_voice st v d o b).trace = st.trace := by
  simp only [map_voice]
  split_ifs <;> rfl

@[simp] theorem map_voice_lastPitch (st : MPState) (v d o : Nat) (b : Bool) :
    (map_voice st v d o b).lastPitch = st.lastPitch := by
  simp only [map_voice]
  split_ifs <;> rfl

-- ----------------------------------------------------------------------------
-- C8: note_off iterates the live routing state

/-- C8: `note_off` iterates the routing and mute state current at off-time.
Map voice `v` to ER301 output `A` only, play a note, then remap (`A` cleared,
`B` set) before releasing: `note_off(v)` sends the volume-zero dispatch (the
doubled ER301 gate-low command) to `B`, and `A` receives nothing — the two
appended messages name `B` and differ from any message naming `A`. -/

theorem C8_note_off_uses_live_routing (st : MPState) (v A B : Nat) (p : Int) (vol : Nat)
    (hv : v < MAX_VOICES_COUNT) (hA : A < MAX_OUTPUT_COUNT) (hB : B < MAX_OUTPUT_COUNT)
    (hAB : A ≠ B) (hl : st.isI2cLeader = true)
    (hmaps : ∀ d k, st.voiceMaps v d k = 0) (hon : st.deviceOn VOICE_ER301 ≠ 0) :
    (note_off (map_voice (map_voice (note_on_v (map_voice st v VOICE_ER301 A true) v p vol)
        v VOICE_ER301 A false) v VOICE_ER301 B true) v).trace =
      (map_voice (map_voice (note_on_v (map_voice st v VOICE_ER301 A true) v p vol)
        v VOICE_ER301 A false) v VOICE_ER301 B true).trace ++
      [WireOp.i2c ER301_1 [TO_TR, B, 0, 0], WireOp.i2c ER301_1 [TO_TR, B, 0, 0]] ∧
    (WireOp.i2c ER301_1 [TO_TR, B, 0, 0] : WireOp) ≠ WireOp.i2c ER301_1 [TO_TR, A, 0, 0] := by
  have hv' : v < 32 := hv
  have hA' : A < 8 := hA
  have hB' : B < 8 := hB
  have hgA : ¬(v ≥ MAX_VOICES_COUNT ∨ VOICE_ER301 ≥ MAX_DEVICE_COUNT ∨ A > MAX_OUTPUT_COUNT) := by
    show ¬(v ≥ 32 ∨ 1 ≥ 10 ∨ A > 8)
    omega
  have hgB : ¬(v ≥ MAX_VOICES_COUNT ∨ VOICE_ER301 ≥ MAX_DEVICE_COUNT ∨ B > MAX_OUTPUT_COUNT) := by
    show ¬(v ≥ 32 ∨ 1 ≥ 10 ∨ B > 8)
    omega
  obtain ⟨hA3, -⟩ := out_bits_low A hA'
  obtain ⟨hB3, -⟩ := out_bits_low B hB'
  set s1 := map_voice st v VOICE_ER301 A true with hs1
  set s2 := note_on_v s1 v p vol with hs2
  set s3 := map_voice s2 v VOICE_ER301 A false with hs3
  set s4 := map_voice s3 v VOICE_ER301 B true with hs4
  have h2r : sameRouting s2 s1 := note_on_v_sameRouting s1 v p vol
  have h1m : s1.voiceMaps = updMap st.voiceMaps v VOICE_ER301 0
      (0 ||| (1 <<< (A &&& 7))) := by
    rw [hs1]
    simp only [map_voice, if_neg hgA, if_pos, hA3]
    rw [hmaps VOICE_ER301 0]
  have h3m : s3.voiceMaps = updMap s2.voiceMaps v VOICE_ER301 0
      ((0 ||| (1 <<< (A &&& 7))) &&& (0xff ^^^ (1 <<< (A &&& 7)))) := by
    rw [hs3]
    simp only [map_voice, if_neg hgA, hA3, Bool.false_eq_true, if_false]
    rw [h2r.1, h1m, updMap_same]
  have h4m : s4.voiceMaps = updMap s3.voiceMaps v VOICE_ER301 0
      (0 ||| (1 <<< (B &&& 7))) := by
    rw [hs4]
    simp only [map_voice, if_neg hgB, if_pos, hB3]
    rw [h3m, updMap_same, set_then_clear_bit A hA']
  have h4on : s4.deviceOn = st.deviceOn := by
    rw [hs4, hs3]
    simp only [map_voice_deviceOn]
    rw [h2r.2.1, hs1, map_voice_deviceOn]
  have h4l : s4.isI2cLeader = true := by
    rw [hs4, hs3]
    simp only [map_voice_isI2cLeader]
    rw [h2r.2.2, hs1, map_voice_isI2cLeader, hl]
  have hbyte : ∀ d, d ≠ VOICE_ER301 → ∀ k, s4.voiceMaps v d k = 0 := by
    intro d hd k
    rw [h4m, updMap_other _ _ _ _ _ _ _ _ (fun h => hd h.2.1),
      h3m, updMap_other _ _ _ _ _ _ _ _ (fun h => hd h.2.1),
      h2r.1, h1m, updMap_other _ _ _ _ _ _ _ _ (fun h => hd h.2.1), hmaps]
  have hoff : ∀ d, d ≠ VOICE_ER301 → ∀ o ∈ List.range MAX_OUTPUT_COUNT,
      is_voice_mapped s4 v d o = false := by
    intro d hd o _
    simp [is_voice_mapped, hbyte d hd]
  have her : ∀ o ∈ List.range MAX_OUTPUT_COUNT,
      (is_voice_mapped s4 v VOICE_ER301 o = true) ↔ o = B := by
    intro o ho
    have ho' : o < 8 := List.mem_range.mp ho
    obtain ⟨ho3, -⟩ := out_bits_low o ho'
    simp only [is_voice_mapped, ho3, h4m, updMap_same, h4on, Bool.and_eq_true,
      decide_eq_true_eq]
    constructor
    · rintro ⟨h, -⟩
      exact (single_bit_test B hB' o ho').mp h
    · intro h
      exact ⟨(single_bit_test B hB' o ho').mpr h, hon⟩
  constructor
  · have hnv : ¬ v ≥ MAX_VOICES_COUNT := by
      show ¬ v ≥ 32
      omega
    simp only [note_off, if_neg hnv]
    rw [dispatchLoop_id v VOICE_CV_GATE _ s4 (hoff VOICE_CV_GATE (by decide))]
    rw [dispatchLoop_single v VOICE_ER301 B _
      (fun s o => sameRouting_of_simps (by simp) (by simp) (by simp)) s4 hB her]
    have h5r : sameRouting (send_er301_note s4 B (s4.lastPitch v) 0) s4 :=
      sameRouting_of_simps (by simp) (by simp) (by simp)
    have hoff5 : ∀ d, d ≠ VOICE_ER301 → ∀ o ∈ List.range MAX_OUTPUT_COUNT,
        is_voice_mapped (send_er301_note s4 B (s4.lastPitch v) 0) v d o = false := by
      intro d hd o ho
      rw [is_voice_mapped_congr h5r]
      exact hoff d hd o ho
    rw [dispatchLoop_id v VOICE_JF _ _ (hoff5 VOICE_JF (by decide))]
    rw [dispatchLoop_id v VOICE_TXO_NOTE _ _ (hoff5 VOICE_TXO_NOTE (by decide))]
    rw [dispatchLoop_id v VOICE_TXO_CV_GATE _ _ (hoff5 VOICE_TXO_CV_GATE (by decide))]
    rw [dispatchLoop_id v VOICE_DISTING_EX _ _ (hoff5 VOICE_DISTING_EX (by decide))]
    rw [dispatchLoop_id v VOICE_EX_MIDI_1 _ _ (hoff5 VOICE_EX_MIDI_1 (by decide))]
    rw [dispatchLoop_id v VOICE_EX_MIDI_CH _ _ (hoff5 VOICE_EX_MIDI_CH (by decide))]
    rw [dispatchLoop_id v VOICE_I2C2MIDI_1 _ _ (hoff5 VOICE_I2C2MIDI_1 (by decide))]
    rw [dispatchLoop_id v VOICE_I2C2MIDI_CH _ _ (hoff5 VOICE_I2C2MIDI_CH (by decide))]
    have hbe : ¬ B ≥ MAX_ER301_OUTPUT_COUNT := by
      show ¬ B ≥ 16
      omega
    have hbc : ¬ B ≥ MAX_ER301_COUNT := by
      show ¬ B ≥ 100
      omega
    have hsend : send_er301_note s4 B (s4.lastPitch v) 0 = set_er301_gate_impl s4 B false := by
      simp [send_er301_note, hbe]
    rw [hsend]
    simp [set_er301_gate_impl, hbc, i2c_leader_tx, h4l]
  · simp [Ne.symm hAB]

/-- Witness for `C8_note_off_uses_live_routing`: voice 0, outputs A = 0, B = 1. -/
theorem C8_note_off_uses_live_routing_witness :
    (note_off (map_voice (map_voice (note_on_v (map_voice testState 0 VOICE_ER301 0 true) 0 5 100)
        0 VOICE_ER301 0 false) 0 VOICE_ER301 1 true) 0).trace =
      (map_voice (map_voice (note_on_v (map_voice testState 0 VOICE_ER301 0 true) 0 5 100)
        0 VOICE_ER301 0 false) 0 VOICE_ER301 1 true).trace ++
      [WireOp.i2c ER301_1 [TO_TR, 1, 0, 0], WireOp.i2c ER301_1 [TO_TR, 1, 0, 0]] ∧
    (WireOp.i2c ER301_1 [TO_TR, 1, 0, 0] : WireOp) ≠ WireOp.i2c ER301_1 [TO_TR, 0, 0, 0] :=
  C8_note_off_uses_live_routing testState 0 0 1 5 100 (by decide) (by decide) (by decide)
    (by decide) rfl (fun _ _ => rfl) (by decide)

-- ----------------------------------------------------------------------------
-- C2 amended: volume zero is off for every family except TXO CV/Gate

/-- C2 amended: for any voice with no TXO CV/Gate mapping, `note_on_v(v, p, 0)`
is *identical* (same wire traffic, same final state) to `note_off(v)` executed
after `last_pitch[v] := p`: volume 0 reaches every other family's encoder as
the "off" dispatch.  The TXO CV/Gate family is the exception established by the
counterexample. -/

theorem C2_volume_zero_off_without_txo_cv_gate (st : MPState) (v : Nat) (p : Int)
    (hv : v < MAX_VOICES_COUNT)
    (hnotxo : ∀ o ∈ List.range MAX_OUTPUT_COUNT,
      is_voice_mapped st v VOICE_TXO_CV_GATE o = false) :
    note_on_v st v p 0 = note_off { st with lastPitch := upd1 st.lastPitch v p } v := by
  have hnv : ¬ v ≥ MAX_VOICES_COUNT := by
    have : v < 32 := hv
    show ¬ v ≥ 32
    omega
  have key : ∀ x : MPState, sameRouting x st →
      dispatchLoop v VOICE_TXO_CV_GATE
        (fun s o => set_txo_gate_impl (set_txo_cv_impl s o p) o true) x
      = dispatchLoop v VOICE_TXO_CV_GATE (fun s o => set_txo_gate_impl s o false) x := by
    intro x hx
    have hfalse : ∀ o ∈ List.range MAX_OUTPUT_COUNT,
        is_voice_mapped x v VOICE_TXO_CV_GATE o = false := by
      intro o ho
      rw [is_voice_mapped_congr hx]
      exact hnotxo o ho
    rw [dispatchLoop_id v VOICE_TXO_CV_GATE _ x hfalse,
      dispatchLoop_id v VOICE_TXO_CV_GATE _ x hfalse]
  simp only [note_on_v, note_off, if_neg hnv, upd1_same]
  congr 1
  congr 1
  congr 1
  congr 1
  congr 1
  apply key
  exact sameRouting_trans (dispatchLoop_sameRouting _ _ _
      (fun s o => sameRouting_of_simps (by simp) (by simp) (by simp)) _)
    (sameRouting_trans (dispatchLoop_sameRouting _ _ _
      (fun s o => sameRouting_of_simps (by simp) (by simp) (by simp)) _)
    (sameRouting_trans (dispatchLoop_sameRouting _ _ _
      (fun s o => sameRouting_of_simps (by simp) (by simp) (by simp)) _)
    (sameRouting_trans (dispatchLoop_sameRouting _ _ _
      (fun s o => sameRouting_of_simps (by simp) (by simp) (by simp)) _)
      (sameRouting_of_simps rfl rfl rfl))))

/-- Witness for `C2_volume_zero_off_without_txo_cv_gate` at voice 0, pitch 7 on
a state with empty routing. -/
theorem C2_volume_zero_off_without_txo_cv_gate_witness :
    note_on_v testState 0 7 0
      = note_off { testState with lastPitch := upd1 testState.lastPitch 0 7 } 0 :=
  C2_volume_zero_off_without_txo_cv_gate testState 0 7 (by decide) (by decide)

-- ----------------------------------------------------------------------------
-- C7: TXO dirty-parameter coalescing

theorem set_txo_param_effect (fld : TxoField) (st : MPState) (o val : Nat)
    (ho : o < MAX_TXO_OUTPUT_COUNT) :
    (set_txo_param fld st o val).trace = st.trace ∧
    (set_txo_param fld st o val).isI2cLeader = st.isI2cLeader ∧
    (∀ j, j ≠ o → (set_txo_param fld st o val).txoRefresh j = st.txoRefresh j) ∧
    txoFieldDirty fld ((set_txo_param fld st o val).txoRefresh o) = true ∧
    txoFieldVal fld ((set_txo_param fld st o val).txoRefresh o) = val % 65536 := by
  have hno : ¬ o ≥ MAX_TXO_OUTPUT_COUNT := by
    have : o < 16 := ho
    show ¬ o ≥ 16
    omega
  cases fld <;>
    refine ⟨?_, ?_, fun j hj => ?_, ?_, ?_⟩ <;>
      simp [set_txo_param, set_txo_attack, set_txo_decay, set_txo_waveform, hno,
        txoFieldDirty, txoFieldVal, upd1_same, upd1, *]

theorem setter_fold_effect (fld : TxoField) (o : Nat) (ho : o < MAX_TXO_OUTPUT_COUNT) :
    ∀ (vs : List Nat) (hvs : vs ≠ []) (st : MPState),
    (vs.foldl (fun s val => set_txo_param fld s o val) st).trace = st.trace ∧
    (vs.foldl (fun s val => set_txo_param fld s o val) st).isI2cLeader = st.isI2cLeader ∧
    (∀ j, j ≠ o →
      (vs.foldl (fun s val => set_txo_param fld s o val) st).txoRefresh j = st.txoRefresh j) ∧
    txoFieldDirty fld ((vs.foldl (fun s val => set_txo_param fld s o val) st).txoRefresh o)
      = true ∧
    txoFieldVal fld ((vs.foldl (fun s val => set_txo_param fld s o val) st).txoRefresh o)
      = vs.getLast hvs % 65536
  | [], hvs, _ => absurd rfl hvs
  | [v], _, st => by
      simpa using set_txo_param_effect fld st o v ho
  | v :: v' :: vs, _, st => by
      have ih := setter_fold_effect fld o ho (v' :: vs) (List.cons_ne_nil v' vs)
        (set_txo_param fld st o v)
      have he := set_txo_param_effect fld st o v ho
      simp only [List.foldl_cons] at ih ⊢
      refine ⟨ih.1.trans he.1, ih.2.1.trans he.2.1, fun j hj => (ih.2.2.1 j hj).trans (he.2.2.1 j hj), ih.2.2.2.1, ?_⟩
      rw [ih.2.2.2.2]
      exact congrArg (fun t => t % 65536) (List.getLast_cons (List.cons_ne_nil v' vs)).symm

theorem refresh_step_effect (st : MPState) (i : Nat) (hl : st.isI2cLeader = true)
    (hi : i < MAX_TXO_OUTPUT_COUNT) :
    (refresh_step st i).trace = st.trace ++ refreshMsgs st i ∧
    (refresh_step st i).txoRefresh i = clearDirty (st.txoRefresh i) ∧
    (∀ j, j ≠ i → (refresh_step st i).txoRefresh j = st.txoRefresh j) ∧
    (refresh_step st i).isI2cLeader = true := by
  have hno : ¬ i ≥ MAX_TXO_OUTPUT_COUNT := by
    have : i < 16 := hi
    show ¬ i ≥ 16
    omega
  rcases hS : st.txoRefresh i with ⟨a1, d1, w1, av, dv, wv⟩
  refine ⟨?_, ?_, fun j hj => ?_, ?_⟩
  · rcases a1 <;> rcases d1 <;> rcases w1 <;>
      simp [refresh_step, refreshMsgs, txoCmdWire, send_txo_command, i2c_leader_tx,
        hl, hno, hS, upd1_same, upd1]
  · rcases a1 <;> rcases d1 <;> rcases w1 <;>
      simp [refresh_step, clearDirty, send_txo_command, i2c_leader_tx, hl, hno, hS,
        upd1_same, upd1]
  · rcases a1 <;> rcases d1 <;> rcases w1 <;>
      simp [refresh_step, send_txo_command, i2c_leader_tx, hl, hno, hS, upd1, hj]
  · rcases a1 <;> rcases d1 <;> rcases w1 <;>
      simp [refresh_step, send_txo_command, i2c_leader_tx, hl, hno, hS, upd1]

theorem bind_cons_eq {α β : Type} (a : α) (l : List α) (f : α → List β) :
    (a :: l).flatMap f = f a ++ l.flatMap f := rfl

theorem bind_congr_eq {α β : Type} (g1 g2 : α → List β) :
    ∀ (l : List α), (∀ x ∈ l, g1 x = g2 x) → l.flatMap g1 = l.flatMap g2
  | [], _ => rfl
  | a :: l, h => by
      rw [bind_cons_eq, bind_cons_eq, h a (List.mem_cons_self a l),
        bind_congr_eq g1 g2 l fun x hx => h x (List.mem_cons_of_mem _ hx)]

theorem bind_nil_of {α β : Type} (g : α → List β) :
    ∀ (l : List α), (∀ x ∈ l, g x = []) → l.flatMap g = []
  | [], _ => rfl
  | a :: l, h => by
      rw [bind_cons_eq, h a (List.mem_cons_self a l), List.nil_append,
        bind_nil_of g l fun x hx => h x (List.mem_cons_of_mem _ hx)]

theorem refreshMsgs_congr {a b : MPState} (i : Nat) (h : a.txoRefresh i = b.txoRefresh i) :
    refreshMsgs a i = refreshMsgs b i := by
  simp [refreshMsgs, h]

theorem refresh_go : ∀ (l : List Nat), (∀ i ∈ l, i < MAX_TXO_OUTPUT_COUNT) → l.Nodup →
    ∀ (st : MPState), st.isI2cLeader = true →
    (l.foldl refresh_step st).trace = st.trace ++ l.flatMap (fun i => refreshMsgs st i) ∧
    (∀ j ∈ l, (l.foldl refresh_step st).txoRefresh j = clearDirty (st.txoRefresh j)) ∧
    (∀ j, j ∉ l → (l.foldl refresh_step st).txoRefresh j = st.txoRefresh j) ∧
    (l.foldl refresh_step st).isI2cLeader = true
  | [], _, _, st, hl => by simp [hl]
  | i :: l, hsub, hnd, st, hl => by
      have hi := hsub i (List.mem_cons_self i l)
      have hstep := refresh_step_effect st i hl hi
      have hnotin : i ∉ l := (List.nodup_cons.mp hnd).1
      have ih := refresh_go l (fun j hj => hsub j (List.mem_cons_of_mem _ hj))
        (List.nodup_cons.mp hnd).2 (refresh_step st i) hstep.2.2.2
      refine ⟨?_, ?_, ?_, ih.2.2.2⟩
      · rw [List.foldl_cons, ih.1, hstep.1, List.append_assoc, bind_cons_eq]
        congr 2
        exact bind_congr_eq _ _ l fun j hj =>
          refreshMsgs_congr j (hstep.2.2.1 j fun he => hnotin (he ▸ hj))
      · intro j hj
        rcases List.mem_cons.mp hj with he | hm
        · subst he
          rw [List.foldl_cons, ih.2.2.1 j hnotin, hstep.2.1]
        · rw [List.foldl_cons, ih.2.1 j hm, hstep.2.2.1 j fun he => hnotin (he ▸ hm)]
      · intro j hj
        rw [List.foldl_cons, ih.2.2.1 j fun h => hj (List.mem_cons_of_mem _ h),
          hstep.2.2.1 j fun he => hj (he ▸ List.mem_cons_self i l)]

theorem filter_bind_eq {α β : Type} (p : β → Bool) :
    ∀ (l : List α) (f : α → List β),
      (l.flatMap f).filter p = l.flatMap fun a => (f a).filter p
  | [], _ => rfl
  | a :: l, f => by
      rw [bind_cons_eq, bind_cons_eq, List.filter_append, filter_bind_eq p l f]

theorem bind_eq_of_single {β : Type} (g : Nat → List β) (o : Nat) :
    ∀ (l : List Nat), o ∈ l → l.Nodup → (∀ i ∈ l, i ≠ o → g i = []) →
      l.flatMap g = g o
  | [], ho, _, _ => absurd ho (List.not_mem_nil o)
  | a :: l, ho, hnd, hother => by
      by_cases hao : a = o
      · subst hao
        have hnil : l.flatMap g = [] :=
          bind_nil_of g l fun x hx => hother x (List.mem_cons_of_mem _ hx)
            fun he => (List.nodup_cons.mp hnd).1 (he ▸ hx)
        rw [bind_cons_eq, hnil, List.append_nil]
      · have hmem : o ∈ l := by
          rcases List.mem_cons.mp ho with he | hm
          · exact absurd he.symm hao
          · exact hm
        rw [bind_cons_eq, hother a (List.mem_cons_self a l) hao, List.nil_append]
        exact bind_eq_of_single g o l hmem (List.nodup_cons.mp hnd).2
          fun i hi => hother i (List.mem_cons_of_mem _ hi)

theorem txo_addr_port_inj : ∀ i < 16, ∀ o < 16,
    u8t (TELEXO + (i >>> 2)) = u8t (TELEXO + (o >>> 2)) → i &&& 3 = o &&& 3 → i = o := by
  decide

theorem isFieldMsgFor_other (fld : TxoField) (o i c val : Nat)
    (hi : i < 16) (ho : o < 16) (hne : i ≠ o) :
    isFieldMsgFor fld o (txoCmdWire i c val) = false := by
  simp only [isFieldMsgFor, txoCmdWire, List.head?_cons, Option.some.injEq,
    List.getElem?_cons_succ, List.getElem?_cons_zero, Bool.and_eq_false_iff,
    decide_eq_false_iff_not]
  by_cases haddr : u8t (TELEXO + (i >>> 2)) = u8t (TELEXO + (o >>> 2))
  · by_cases hport : i &&& 3 = o &&& 3
    · exact absurd (txo_addr_port_inj i hi o ho haddr hport) hne
    · right
      simpa using hport
  · left
    left
    simpa using haddr

theorem filter_refreshMsgs_other (fld : TxoField) (st : MPState) (o i : Nat)
    (hi : i < 16) (ho : o < 16) (hne : i ≠ o) :
    (refreshMsgs st i).filter (isFieldMsgFor fld o) = [] := by
  rcases hS : st.txoRefresh i with ⟨a1, d1, w1, av, dv, wv⟩
  rcases a1 <;> rcases d1 <;> rcases w1 <;>
    simp [refreshMsgs, hS, List.filter_append, List.filter_cons,
      isFieldMsgFor_other fld o i _ _ hi ho hne]

theorem filter_refreshMsgs_self (fld : TxoField) (st : MPState) (o : Nat)
    (hd : txoFieldDirty fld (st.txoRefresh o) = true) :
    (refreshMsgs st o).filter (isFieldMsgFor fld o)
      = [txoCmdWire o (txoFieldCmd fld) (txoFieldVal fld (st.txoRefresh o))] := by
  rcases hS : st.txoRefresh o with ⟨a1, d1, w1, av, dv, wv⟩
  rw [hS] at hd
  cases fld <;> rcases a1 <;> rcases d1 <;> rcases w1 <;>
    simp_all [refreshMsgs, txoFieldDirty, txoFieldVal, txoFieldCmd, hS,
      List.filter_append, List.filter_cons, isFieldMsgFor, txoCmdWire,
      TO_ENV_ATT, TO_ENV_DEC, TO_OSC_WAVE]

theorem txoFieldDirty_clearDirty (fld : TxoField) (s : TxoRefreshSlot) :
    txoFieldDirty fld (clearDirty s) = false := by
  cases fld <;> simp [txoFieldDirty, clearDirty]

theorem C7_txo_dirty_coalescing (fld : TxoField) (st : MPState) (o : Nat) (vs : List Nat)
    (ho : o < MAX_TXO_OUTPUT_COUNT) (hvs : vs ≠ []) (hl : st.isI2cLeader = true) :
    (vs.foldl (fun s val => set_txo_param fld s o val) st).trace = st.trace ∧
    ((refresh_i2c (vs.foldl (fun s val => set_txo_param fld s o val) st)).trace.drop
        st.trace.length).filter (isFieldMsgFor fld o)
      = [txoCmdWire o (txoFieldCmd fld) (vs.getLast hvs % 65536)] ∧
    txoFieldDirty fld
      ((refresh_i2c (vs.foldl (fun s val => set_txo_param fld s o val) st)).txoRefresh o)
      = false := by
  have ho16 : o < 16 := ho
  set s1 := vs.foldl (fun s val => set_txo_param fld s o val) st with hs1
  have hset := setter_fold_effect fld o ho vs hvs st
  have hgo := refresh_go (List.range MAX_TXO_OUTPUT_COUNT)
    (fun i hi => List.mem_range.mp hi) (List.nodup_range _) s1 (hset.2.1.trans hl)
  have hrefresh : refresh_i2c s1 = (List.range MAX_TXO_OUTPUT_COUNT).foldl refresh_step s1 :=
    rfl
  refine ⟨hset.1, ?_, ?_⟩
  · rw [hrefresh, hgo.1, hset.1, List.drop_left, filter_bind_eq]
    rw [bind_eq_of_single _ o (List.range MAX_TXO_OUTPUT_COUNT)
      (List.mem_range.mpr ho) (List.nodup_range _) ?hother]
    case hother =>
      intro i hi hne
      exact filter_refreshMsgs_other fld s1 o i (List.mem_range.mp hi) ho16 hne
    rw [filter_refreshMsgs_self fld s1 o hset.2.2.2.1, hset.2.2.2.2]
  · rw [hrefresh, hgo.2.1 o (List.mem_range.mpr ho), txoFieldDirty_clearDirty]

/-- Witness for `C7_txo_dirty_coalescing`: `set_txo_attack(3, 10)` then
`set_txo_attack(3, 15)` before the flush results in exactly one attack command
for output 3, carrying 15. -/
theorem C7_txo_dirty_coalescing_witness :
    ([10, 15].foldl (fun s val => set_txo_param TxoField.attack s 3 val) testState).trace
      = testState.trace ∧
    ((refresh_i2c ([10, 15].foldl (fun s val => set_txo_param TxoField.attack s 3 val)
        testState)).trace.drop testState.trace.length).filter
        (isFieldMsgFor TxoField.attack 3)
      = [txoCmdWire 3 (txoFieldCmd TxoField.attack)
          ((10 :: [15]).getLast (List.cons_ne_nil 10 [15]) % 65536)] ∧
    txoFieldDirty TxoField.attack
      ((refresh_i2c ([10, 15].foldl (fun s val => set_txo_param TxoField.attack s 3 val)
        testState)).txoRefresh 3) = false :=
  C7_txo_dirty_coalescing TxoField.attack testState 3 [10, 15] (by decide)
    (List.cons_ne_nil 10 [15]) rfl
